import Mathlib

/-!
Verification development for the `agent_starter_pack` API service
(`src/agent_starter_pack/api/`): a shallow embedding, in Lean, of the
request handler (`main.py`), the project generator and customization step
(`project_generator.py`), the stand-alone code generator (`generator.py`)
and the GitHub folder-publish helper (`github_helper.py`), together with
theorems settling the frozen claims about this code.

Python strings are modelled as Lean `String` (a wrapper around `List Char`).
All Python string primitives used by the code (`str.replace`, `str.split`,
`str.rfind`, slicing, `in`, `str.join`, `str.isalnum`, `str.isdigit`,
`str.lower`, `str.rstrip`) are re-implemented below as executable Lean
functions with the same semantics on the ASCII inputs this code base works
with (the Python originals are Unicode-aware; every literal in this
repository is ASCII, and the ASCII restriction is noted where it matters).
-/

namespace AgentStarter

/-! ## Python-style string primitives -/

/-- Number of positions of `s` at which `pat` occurs (all positions are
inspected, so overlapping occurrences are each counted; the patterns used in
this development cannot overlap themselves). `cntAux pat s = 0` is the formal
rendering of "`pat` does not occur in `s`". -/
def cntAux (pat : List Char) : List Char → Nat
  | [] => 0
  | c :: rest => (if pat <+: (c :: rest) then 1 else 0) + cntAux pat rest

/-- `pat` occurs somewhere in `s` (Python `pat in s`). -/
def containsSub (s pat : String) : Bool :=
  (List.range (s.data.length + 1)).any fun i => decide (pat.data <+: s.data.drop i)

/-- Fuel-driven core of Python `str.replace` (all occurrences, leftmost,
non-overlapping, replacement text not rescanned). The fuel only needs to
exceed the length of the subject string. -/
def replFuel (pat new : List Char) : Nat → List Char → List Char
  | 0, s => s
  | _ + 1, [] => []
  | f + 1, c :: rest =>
    if pat <+: (c :: rest) then new ++ replFuel pat new f (List.drop pat.length (c :: rest))
    else c :: replFuel pat new f rest

/-- Python `s.replace(pat, new)`. For an empty `pat`, Python interleaves
`new` around every character; that case is modelled too although no call
site in this repository uses it. -/
def pyReplace (s pat new : String) : String :=
  if pat.data.isEmpty then
    ⟨new.data ++ s.data.flatMap (fun c => c :: new.data)⟩
  else
    ⟨replFuel pat.data new.data (s.data.length + 1) s.data⟩

/-- Fuel-driven core of Python `str.split(pat)` (nonempty separator). -/
def splitFuel (pat : List Char) : Nat → List Char → List Char → List (List Char)
  | 0, s, acc => [acc ++ s]
  | _ + 1, [], acc => [acc]
  | f + 1, c :: rest, acc =>
    if pat <+: (c :: rest) then acc :: splitFuel pat f (List.drop pat.length (c :: rest)) []
    else splitFuel pat f rest (acc ++ [c])

/-- Python `s.split(pat)` for a nonempty separator (an empty separator
raises `ValueError` in Python; no call site uses it, and the guard returns
`[s]` here). -/
def pySplit (s pat : String) : List String :=
  if pat.data.isEmpty then [s]
  else (splitFuel pat.data (s.data.length + 1) s.data []).map String.mk

/-- Python `sep.join(parts)`. -/
def pyJoin (sep : String) : List String → String
  | [] => ""
  | [p] => p
  | p :: rest => p ++ sep ++ pyJoin sep rest

/-- Python `s.rfind(pat)`: start index of the last occurrence of `pat` in
`s`, or `-1` when there is none. -/
def pyRFind (s pat : String) : Int :=
  match ((List.range (s.data.length + 1)).filter
      fun i => decide (pat.data <+: s.data.drop i)).getLast? with
  | some i => (i : Int)
  | none => -1

/-- Python slice `s[:k]` for an integer bound `k` (negative bounds count
from the end, as in Python). -/
def pySliceTo (s : String) (k : Int) : String :=
  if k < 0 then ⟨s.data.take (s.data.length - k.natAbs)⟩
  else ⟨s.data.take k.toNat⟩

/-- Python `str.isalnum` restricted to ASCII: nonempty and every character
alphanumeric. (Python accepts further Unicode letter/digit categories;
every string this development evaluates on is ASCII.) -/
def pyIsAlnum (s : String) : Bool :=
  !s.data.isEmpty && s.data.all Char.isAlphanum

/-- Python `str.isdigit` restricted to ASCII: nonempty and every character
a decimal digit. -/
def pyIsDigitStr (s : String) : Bool :=
  !s.data.isEmpty && s.data.all Char.isDigit

/-- Python `str.lower` restricted to ASCII. -/
def pyLowerStr (s : String) : String :=
  ⟨s.data.map Char.toLower⟩

/-- Python `s.rstrip("/")`: drop every trailing slash. -/
def rstripSlashes (s : String) : String :=
  ⟨(s.data.reverse.dropWhile (fun c => c = '/')).reverse⟩

/-- Truthiness of an optional Python string: `None` and `""` are falsy. -/
def pyTruthy : Option String → Bool
  | none => false
  | some s => !s.data.isEmpty

/-- Python `a or b` on two optional strings (`None` and `""` are falsy);
returns the first truthy value, if any. -/
def pyOrOpt (a b : Option String) : Option String :=
  if pyTruthy a then a else if pyTruthy b then b else none

/-- Python `a or d` where `a` is an optional string and `d` a string
default. -/
def pyOrStr (a : Option String) (d : String) : String :=
  match a with
  | some s => if s.data.isEmpty then d else s
  | none => d

/-- Decimal digits of a natural number (fuel-driven, most significant
first). -/
def natDecAux : Nat → Nat → List Char
  | 0, _ => []
  | f + 1, n =>
    if n < 10 then [Char.ofNat (48 + n)]
    else natDecAux f (n / 10) ++ [Char.ofNat (48 + n % 10)]

/-- Decimal rendering of a natural number. -/
def natDec (n : Nat) : String := ⟨natDecAux (n + 1) n⟩

/-- Python `f"{n:04d}"` for a natural number: the decimal rendering
left-padded with zeros to width 4. -/
def format04d (n : Nat) : String :=
  ⟨List.replicate (4 - (natDec n).data.length) '0' ++ (natDec n).data⟩

/-! ## Facts about the string primitives

The workhorse notions: `cntAux pat s` counts the positions of `s` where
`pat` occurs, and `crossFree pat a b` says no occurrence of `pat` in
`a ++ b` straddles the junction between `a` and `b`. -/

/-- A prefix of at most the length of the left part of an append is decided
by the left part alone. -/
lemma pfx_det_left {p a b : List Char} (h : p.length ≤ a.length) :
    p <+: a ++ b ↔ p <+: a := by
  constructor
  · intro hp
    rw [List.prefix_iff_eq_take] at hp ⊢
    rwa [List.take_append_of_le_length h] at hp
  · intro hp
    exact hp.trans (List.prefix_append a b)

/-- A suffix of at most the length of the right part of an append is
decided by the right part alone. -/
lemma sfx_det_right {y x t : List Char} (h : y.length ≤ t.length) :
    y <:+ x ++ t ↔ y <:+ t := by
  constructor
  · intro hs
    rw [List.suffix_iff_eq_drop] at hs
    rw [List.suffix_iff_eq_drop]
    have key : List.drop ((x ++ t).length - y.length) (x ++ t)
        = List.drop (t.length - y.length) t := by
      rw [List.length_append,
        show x.length + t.length - y.length = x.length + (t.length - y.length) from by omega,
        List.drop_append]
    rw [key] at hs
    exact hs
  · intro hs
    exact hs.trans (List.suffix_append x t)

lemma cnt_nil (pat : List Char) : cntAux pat [] = 0 := rfl

lemma cnt_cons (pat : List Char) (c : Char) (rest : List Char) :
    cntAux pat (c :: rest) = (if pat <+: (c :: rest) then 1 else 0) + cntAux pat rest := rfl

/-- For a nonempty pattern, a zero count is exactly "no occurrence at any
position". -/
lemma cnt_eq_zero_iff {pat : List Char} (hp : pat ≠ []) (s : List Char) :
    cntAux pat s = 0 ↔ ∀ m, ¬ pat <+: s.drop m := by
  induction s with
  | nil =>
    simp only [cnt_nil, List.drop_nil, true_iff]
    intro m hm
    exact hp (List.prefix_nil.mp hm)
  | cons c rest ih =>
    rw [cnt_cons]
    constructor
    · intro h m
      have h0 : ¬ pat <+: (c :: rest) := by
        intro hocc
        simp [hocc] at h
      have h1 : cntAux pat rest = 0 := by omega
      cases m with
      | zero => simpa using h0
      | succ m => exact (ih.mp h1) m
    · intro h
      have h0 : ¬ pat <+: (c :: rest) := by simpa using h 0
      have h1 : ∀ m, ¬ pat <+: rest.drop m := fun m => by simpa using h (m + 1)
      simp [h0, ih.mpr h1]

/-- No occurrence of `pat` inside `a ++ b` straddles the junction: for every
proper split of `pat`, either its left half is not a suffix of `a` or its
right half is not a prefix of `b`. -/
def crossFree (pat a b : List Char) : Prop :=
  ∀ j < pat.length, 0 < j → ¬ (pat.take j <:+ a) ∨ ¬ (pat.drop j <+: b)

instance (pat a b : List Char) : Decidable (crossFree pat a b) := by
  unfold crossFree
  infer_instance

lemma crossFree_tail {pat a b : List Char} (c : Char) (h : crossFree pat (c :: a) b) :
    crossFree pat a b := by
  intro j hj hj0
  rcases h j hj hj0 with hs | hb
  · exact Or.inl fun hx => hs (hx.trans (List.suffix_cons c a))
  · exact Or.inr hb

/-- If `pat` reaches past `a` as a prefix of `a ++ b`, its two halves
witness a junction-straddling occurrence. -/
lemma cross_of_pfx {pat a b : List Char} (hlen : a.length < pat.length)
    (hp : pat <+: a ++ b) : (pat.take a.length <:+ a) ∧ (pat.drop a.length <+: b) := by
  rw [List.prefix_iff_eq_take] at hp
  constructor
  · have : pat.take a.length = a := by
      rw [hp, List.take_take]
      have hmin : min a.length pat.length = a.length := by omega
      rw [hmin, List.take_append_of_le_length (le_refl a.length), List.take_length]
    rw [this]
  · have hkey : pat.drop a.length = b.take (pat.length - a.length) := by
      conv_lhs => rw [hp]
      rw [List.drop_take, List.drop_left]
    rw [hkey]
    exact List.take_prefix _ b

/-- Counting distributes over an append when no occurrence straddles the
junction. -/
lemma cnt_append {pat : List Char} (a b : List Char) (h : crossFree pat a b) :
    cntAux pat (a ++ b) = cntAux pat a + cntAux pat b := by
  induction a with
  | nil => simp [cnt_nil]
  | cons c rest ih =>
    have step : cntAux pat (rest ++ b) = cntAux pat rest + cntAux pat b :=
      ih (crossFree_tail c h)
    rw [List.cons_append, cnt_cons, cnt_cons, step]
    have hconv : pat <+: c :: (rest ++ b) ↔ pat <+: (c :: rest) ++ b := Iff.rfl
    by_cases hlen : pat.length ≤ (c :: rest).length
    · have hif : (if pat <+: c :: (rest ++ b) then 1 else 0)
          = (if pat <+: c :: rest then 1 else 0) := by
        by_cases hx : pat <+: c :: rest
        · rw [if_pos (hconv.mpr ((pfx_det_left hlen).mpr hx)), if_pos hx]
        · rw [if_neg (fun hy => hx ((pfx_det_left hlen).mp (hconv.mp hy))), if_neg hx]
      rw [hif, Nat.add_assoc]
    · push_neg at hlen
      have h1 : ¬ pat <+: (c :: rest) := fun hx => absurd hx.length_le (by omega)
      have h2 : ¬ pat <+: (c :: (rest ++ b)) := by
        intro hx
        have hcross := cross_of_pfx hlen (hconv.mp hx)
        rcases h (c :: rest).length hlen (by simp) with hs | hb
        · exact hs hcross.1
        · exact hb hcross.2
      rw [if_neg h1, if_neg h2, Nat.add_assoc]

/-- A pattern that does not contain `'\n'` cannot occur starting at a
newline character. -/
lemma no_pfx_at_newline {pat : List Char} (hp : pat ≠ []) (hnl : '\n' ∉ pat)
    (b : List Char) : ¬ pat <+: '\n' :: b := by
  intro hx
  obtain ⟨c, t, rfl⟩ := List.exists_cons_of_ne_nil hp
  have := (List.cons_prefix_cons.mp hx).1
  exact hnl (this ▸ List.mem_cons_self c t)

lemma cnt_cons_newline {pat : List Char} (hp : pat ≠ []) (hnl : '\n' ∉ pat)
    (b : List Char) : cntAux pat ('\n' :: b) = cntAux pat b := by
  rw [cnt_cons, if_neg (no_pfx_at_newline hp hnl b), Nat.zero_add]

/-- A pattern containing no `'\n'` cannot straddle a junction whose right
side starts with `'\n'`. -/
lemma crossFree_newline {pat : List Char} (hnl : '\n' ∉ pat) (a b : List Char) :
    crossFree pat a ('\n' :: b) := by
  intro j hj hj0
  right
  intro hx
  have hne : pat.drop j ≠ [] := by
    intro hd
    have := List.drop_eq_nil_iff.mp hd
    omega
  obtain ⟨c, t, hct⟩ := List.exists_cons_of_ne_nil hne
  rw [hct] at hx
  have hc := (List.cons_prefix_cons.mp hx).1
  have : c ∈ pat.drop j := by rw [hct]; exact List.mem_cons_self c t
  exact hnl (hc ▸ (List.drop_subset j pat) this)

/-- Counting a newline-free pattern in a newline-join is the sum of the
per-line counts. -/
lemma cnt_join_lines {pat : List Char} (hp : pat ≠ []) (hnl : '\n' ∉ pat) :
    ∀ L : List String,
      cntAux pat (pyJoin "\n" L).data = (L.map (fun l => cntAux pat l.data)).sum
  | [] => by simp [pyJoin, cnt_nil]
  | [p] => by simp [pyJoin]
  | p :: q :: rest => by
    have ih := cnt_join_lines hp hnl (q :: rest)
    show cntAux pat ((p ++ "\n" ++ pyJoin "\n" (q :: rest)).data) = _
    rw [String.data_append, String.data_append,
      show ("\n" : String).data = ['\n'] from rfl, List.append_assoc,
      show (['\n'] ++ (pyJoin "\n" (q :: rest)).data
        = '\n' :: (pyJoin "\n" (q :: rest)).data) from rfl,
      cnt_append _ _ (crossFree_newline hnl _ _), cnt_cons_newline hp hnl, ih]
    simp

/-- A zero-count subject is returned unchanged by the replacement loop,
whatever the fuel. -/
lemma replFuel_id {pat new : List Char} :
    ∀ (f : Nat) (s : List Char), cntAux pat s = 0 → replFuel pat new f s = s
  | 0, s, _ => rfl
  | _ + 1, [], _ => rfl
  | f + 1, c :: rest, h => by
    rw [cnt_cons] at h
    have h0 : ¬ pat <+: (c :: rest) := by
      intro hocc
      simp [hocc] at h
    have h1 : cntAux pat rest = 0 := by omega
    show (if pat <+: (c :: rest) then _ else _) = _
    rw [if_neg h0, replFuel_id f rest h1]

/-- Head-occurrence check used by the replace and split loops: with no
occurrence in `c :: rest` itself and no junction-straddling occurrence,
`pat` is not a prefix of `(c :: rest) ++ tail`. -/
lemma no_pfx_head {pat : List Char} (c : Char) (rest tail : List Char)
    (ha : cntAux pat (c :: rest) = 0) (hcf : crossFree pat (c :: rest) tail) :
    ¬ pat <+: (c :: rest) ++ tail := by
  intro hx
  by_cases hlen : pat.length ≤ (c :: rest).length
  · have : pat <+: c :: rest := (pfx_det_left hlen).mp hx
    rw [cnt_cons, if_pos this] at ha
    omega
  · push_neg at hlen
    have hcross := cross_of_pfx hlen hx
    rcases hcf (c :: rest).length hlen (by simp) with hs | hb
    · exact hs hcross.1
    · exact hb hcross.2

/-- The replacement loop on `a ++ pat ++ b`, when `pat` occurs in the
subject only at the junction position, rewrites exactly that occurrence. -/
lemma replFuel_concat {pat new : List Char} (hp : pat ≠ []) (b : List Char) :
    ∀ (a : List Char) (f : Nat), (a ++ pat ++ b).length < f →
      cntAux pat a = 0 → crossFree pat a (pat ++ b) → cntAux pat b = 0 →
      replFuel pat new f (a ++ pat ++ b) = a ++ new ++ b
  | [], f, hf, _, _, hb => by
    obtain ⟨c, t, hct⟩ := List.exists_cons_of_ne_nil hp
    cases f with
    | zero => simp at hf
    | succ f =>
      have hsubj : ([] : List Char) ++ pat ++ b = c :: (t ++ b) := by
        rw [hct]; rfl
      rw [hsubj]
      show (if pat <+: (c :: (t ++ b)) then _ else _) = _
      have hocc : pat <+: c :: (t ++ b) := by
        rw [show c :: (t ++ b) = (c :: t) ++ b from rfl, ← hct]
        exact List.prefix_append pat b
      rw [if_pos hocc]
      have hdrop : List.drop pat.length (c :: (t ++ b)) = b := by
        rw [show c :: (t ++ b) = (c :: t) ++ b from rfl, ← hct]
        exact List.drop_left pat b
      rw [hdrop, replFuel_id f b hb]
      rfl
  | c :: rest, f, hf, ha, hcf, hb => by
    cases f with
    | zero => simp at hf
    | succ f =>
      have hsubj : (c :: rest) ++ pat ++ b = c :: (rest ++ pat ++ b) := rfl
      rw [hsubj]
      show (if pat <+: (c :: (rest ++ pat ++ b)) then _ else _) = _
      have hnocc : ¬ pat <+: c :: (rest ++ pat ++ b) := by
        have := no_pfx_head c rest (pat ++ b) ha hcf
        rw [show (c :: rest) ++ (pat ++ b) = c :: (rest ++ (pat ++ b)) from rfl,
          ← List.append_assoc] at this
        exact this
      rw [if_neg hnocc]
      have ha2 : cntAux pat rest = 0 := by
        rw [cnt_cons] at ha
        omega
      have hf2 : (rest ++ pat ++ b).length < f := by
        have : ((c :: rest) ++ pat ++ b).length = (rest ++ pat ++ b).length + 1 := by
          simp
        omega
      rw [replFuel_concat hp b rest f hf2 ha2 (crossFree_tail c hcf) hb]
      rfl

/-- A zero-count subject is never split: the loop returns the single piece
`acc ++ s`, whatever the fuel. -/
lemma splitFuel_id {pat : List Char} :
    ∀ (f : Nat) (s acc : List Char), cntAux pat s = 0 → splitFuel pat f s acc = [acc ++ s]
  | 0, s, acc, _ => rfl
  | _ + 1, [], acc, _ => by simp [splitFuel]
  | f + 1, c :: rest, acc, h => by
    rw [cnt_cons] at h
    have h0 : ¬ pat <+: (c :: rest) := by
      intro hocc
      simp [hocc] at h
    have h1 : cntAux pat rest = 0 := by omega
    show (if pat <+: (c :: rest) then _ else _) = _
    rw [if_neg h0, splitFuel_id f rest (acc ++ [c]) h1]
    simp

/-- The split loop on `a ++ pat ++ b`, when `pat` occurs in the subject
only at the junction position, splits exactly there. -/
lemma splitFuel_concat {pat : List Char} (hp : pat ≠ []) (b : List Char) :
    ∀ (a : List Char) (f : Nat) (acc : List Char), (a ++ pat ++ b).length < f →
      cntAux pat a = 0 → crossFree pat a (pat ++ b) → cntAux pat b = 0 →
      splitFuel pat f (a ++ pat ++ b) acc = [acc ++ a, b]
  | [], f, acc, hf, _, _, hb => by
    obtain ⟨c, t, hct⟩ := List.exists_cons_of_ne_nil hp
    cases f with
    | zero => simp at hf
    | succ f =>
      have hsubj : ([] : List Char) ++ pat ++ b = c :: (t ++ b) := by
        rw [hct]; rfl
      rw [hsubj]
      show (if pat <+: (c :: (t ++ b)) then _ else _) = _
      have hocc : pat <+: c :: (t ++ b) := by
        rw [show c :: (t ++ b) = (c :: t) ++ b from rfl, ← hct]
        exact List.prefix_append pat b
      rw [if_pos hocc]
      have hdrop : List.drop pat.length (c :: (t ++ b)) = b := by
        rw [show c :: (t ++ b) = (c :: t) ++ b from rfl, ← hct]
        exact List.drop_left pat b
      rw [hdrop, splitFuel_id f b [] hb]
      simp
  | c :: rest, f, acc, hf, ha, hcf, hb => by
    cases f with
    | zero => simp at hf
    | succ f =>
      have hsubj : (c :: rest) ++ pat ++ b = c :: (rest ++ pat ++ b) := rfl
      rw [hsubj]
      show (if pat <+: (c :: (rest ++ pat ++ b)) then _ else _) = _
      have hnocc : ¬ pat <+: c :: (rest ++ pat ++ b) := by
        have := no_pfx_head c rest (pat ++ b) ha hcf
        rw [show (c :: rest) ++ (pat ++ b) = c :: (rest ++ (pat ++ b)) from rfl,
          ← List.append_assoc] at this
        exact this
      rw [if_neg hnocc]
      have ha2 : cntAux pat rest = 0 := by
        rw [cnt_cons] at ha
        omega
      have hf2 : (rest ++ pat ++ b).length < f := by
        have : ((c :: rest) ++ pat ++ b).length = (rest ++ pat ++ b).length + 1 := by
          simp
        omega
      rw [splitFuel_concat hp b rest f (acc ++ [c]) hf2 ha2 (crossFree_tail c hcf) hb]
      simp

lemma str_eta (s : String) : String.mk s.data = s := by
  cases s
  rfl

/-- `str.replace` on a subject split around its unique occurrence of the
pattern substitutes the replacement verbatim and leaves the flanks
untouched. -/
lemma pyReplace_concat (a pat b new : String) (hp : pat.data ≠ [])
    (ha : cntAux pat.data a.data = 0)
    (hcf : crossFree pat.data a.data (pat.data ++ b.data))
    (hb : cntAux pat.data b.data = 0) :
    pyReplace (a ++ pat ++ b) pat new = a ++ new ++ b := by
  unfold pyReplace
  rw [if_neg (by simpa using hp)]
  apply String.ext
  show replFuel pat.data new.data ((a ++ pat ++ b).data.length + 1) ((a ++ pat ++ b).data)
    = (a ++ new ++ b).data
  rw [show (a ++ pat ++ b).data = a.data ++ pat.data ++ b.data by
      simp [String.data_append],
    show (a ++ new ++ b).data = a.data ++ new.data ++ b.data by
      simp [String.data_append]]
  exact replFuel_concat hp b.data a.data _ (by omega) ha hcf hb

/-- `str.split` on a subject split around its unique occurrence of the
separator yields exactly the two flanks. -/
lemma pySplit_concat (a pat b : String) (hp : pat.data ≠ [])
    (ha : cntAux pat.data a.data = 0)
    (hcf : crossFree pat.data a.data (pat.data ++ b.data))
    (hb : cntAux pat.data b.data = 0) :
    pySplit (a ++ pat ++ b) pat = [a, b] := by
  unfold pySplit
  rw [if_neg (by simpa using hp)]
  rw [show (a ++ pat ++ b).data = a.data ++ pat.data ++ b.data by
      simp [String.data_append]]
  rw [splitFuel_concat hp b.data a.data _ [] (by omega) ha hcf hb]
  simp [str_eta]

/-- A subject split around an occurrence of the pattern contains it. -/
lemma containsSub_concat (a pat b : String) :
    containsSub (a ++ pat ++ b) pat = true := by
  unfold containsSub
  rw [List.any_eq_true]
  refine ⟨a.data.length, ?_, ?_⟩
  · rw [List.mem_range,
      show (a ++ pat ++ b).data = a.data ++ pat.data ++ b.data by
        simp [String.data_append]]
    simp
    omega
  · rw [show (a ++ pat ++ b).data = a.data ++ (pat.data ++ b.data) by
      simp [String.data_append], List.drop_left]
    simp

lemma pyJoin_cons_cons (sep p q : String) (rest : List String) :
    pyJoin sep (p :: q :: rest) = p ++ sep ++ pyJoin sep (q :: rest) := rfl

/-- The last element of an ascending-sorted list is its maximum. -/
lemma getLast?_of_sorted_max {L : List Nat} (k : Nat) (hmem : k ∈ L)
    (hmax : ∀ j ∈ L, j ≤ k) (hsort : L.Sorted (· < ·)) : L.getLast? = some k := by
  induction L with
  | nil => cases hmem
  | cons x rest ih =>
    cases rest with
    | nil =>
      have : k = x := by simpa using hmem
      simp [this]
    | cons y rest2 =>
      have hk : k ∈ y :: rest2 := by
        rcases List.mem_cons.mp hmem with rfl | h
        · have hyk : y ≤ k := hmax y (by simp)
          have hxy : k < y := (List.sorted_cons.mp hsort).1 y (by simp)
          omega
        · exact h
      rw [List.getLast?_cons_cons]
      exact ih hk (fun j hj => hmax j (List.mem_cons_of_mem x hj))
        (List.sorted_cons.mp hsort).2

/-- `str.rfind` on a subject of the form `a ++ pat ++ b`, when `pat` does
not occur strictly later than the junction, returns the junction index.
Occurrences inside `a` are irrelevant: `rfind` picks the last one. -/
lemma pyRFind_concat (a pat b : String) (hp : pat.data ≠ [])
    (hafter : cntAux pat.data (pat.data.drop 1 ++ b.data) = 0) :
    pyRFind (a ++ pat ++ b) pat = (a.data.length : Int) := by
  obtain ⟨c, t, hct⟩ := List.exists_cons_of_ne_nil hp
  have hdata : (a ++ pat ++ b).data = a.data ++ (pat.data ++ b.data) := by
    simp [String.data_append]
  have hlen : (a ++ pat ++ b).data.length
      = a.data.length + (pat.data.length + b.data.length) := by
    rw [hdata]
    simp
  unfold pyRFind
  have hmem : a.data.length ∈ (List.range ((a ++ pat ++ b).data.length + 1)).filter
      (fun i => decide (pat.data <+: (a ++ pat ++ b).data.drop i)) := by
    rw [List.mem_filter, List.mem_range]
    constructor
    · omega
    · rw [hdata, List.drop_left]
      simp
  have hmax : ∀ j ∈ (List.range ((a ++ pat ++ b).data.length + 1)).filter
      (fun i => decide (pat.data <+: (a ++ pat ++ b).data.drop i)),
      j ≤ a.data.length := by
    intro j hj
    rw [List.mem_filter, List.mem_range] at hj
    by_contra hgt
    push_neg at hgt
    have hocc : pat.data <+: (a ++ pat ++ b).data.drop j := by simpa using hj.2
    have hj2 : j = a.data.length + (1 + (j - a.data.length - 1)) := by omega
    rw [hdata, hj2, List.drop_append] at hocc
    have hx : pat.data ++ b.data = c :: (t ++ b.data) := by rw [hct]; rfl
    rw [hx] at hocc
    have hdrop1 : pat.data.drop 1 = t := by
      rw [hct]
      rfl
    have hzero := (cnt_eq_zero_iff hp (pat.data.drop 1 ++ b.data)).mp hafter
    rw [Nat.add_comm 1 (j - a.data.length - 1), List.drop_succ_cons] at hocc
    exact hzero (j - a.data.length - 1) (by rw [hdrop1]; exact hocc)
  have hsort : ((List.range ((a ++ pat ++ b).data.length + 1)).filter
      (fun i => decide (pat.data <+: (a ++ pat ++ b).data.drop i))).Sorted (· < ·) :=
    List.Sorted.filter _ (List.sorted_lt_range _)
  rw [getLast?_of_sorted_max a.data.length hmem hmax hsort]

/-! ## Decimal formatting facts -/

lemma digit_char_isDigit : ∀ m < 10, (Char.ofNat (48 + m)).isDigit = true := by
  decide

lemma natDecAux_spec : ∀ (k f n : Nat), n < 10 ^ k → 0 < k → n < f →
    (natDecAux f n).length ≤ k ∧ ∀ c ∈ natDecAux f n, c.isDigit := by
  intro k
  induction k with
  | zero => omega
  | succ k ih =>
    intro f n hn hk hf
    cases f with
    | zero => omega
    | succ f =>
      rw [show natDecAux (f + 1) n = if n < 10 then [Char.ofNat (48 + n)]
          else natDecAux f (n / 10) ++ [Char.ofNat (48 + n % 10)] from rfl]
      by_cases h10 : n < 10
      · rw [if_pos h10]
        refine ⟨by simp, ?_⟩
        intro ch hch
        rw [List.mem_singleton] at hch
        rw [hch]
        exact digit_char_isDigit n h10
      · rw [if_neg h10]
        have hk2 : 0 < k := by
          rcases Nat.eq_zero_or_pos k with h0 | h
          · rw [h0] at hn
            simp at hn
            omega
          · exact h
        have hdiv : n / 10 < 10 ^ k := by
          rw [Nat.div_lt_iff_lt_mul (by norm_num)]
          calc n < 10 ^ (k + 1) := hn
          _ = 10 ^ k * 10 := by ring
        have hdivf : n / 10 < f := by
          have : n / 10 < n := Nat.div_lt_self (by omega) (by norm_num)
          omega
        obtain ⟨ihlen, ihdig⟩ := ih f (n / 10) hdiv hk2 hdivf
        constructor
        · rw [List.length_append]
          simp
          omega
        · intro ch hch
          rcases List.mem_append.mp hch with h | h
          · exact ihdig ch h
          · rw [List.mem_singleton] at h
            rw [h]
            exact digit_char_isDigit (n % 10) (Nat.mod_lt n (by norm_num))

/-- `f"{n:04d}"` on `n < 10000` has exactly four characters, all decimal
digits. -/
lemma format04d_spec (n : Nat) (h : n < 10000) :
    (format04d n).data.length = 4 ∧ (format04d n).data.all Char.isDigit = true := by
  have hspec := natDecAux_spec 4 (n + 1) n (by norm_num; omega) (by norm_num) (by omega)
  constructor
  · show (List.replicate (4 - (natDec n).data.length) '0' ++ (natDec n).data).length = 4
    rw [List.length_append, List.length_replicate]
    have := hspec.1
    show 4 - (natDecAux (n + 1) n).length + (natDecAux (n + 1) n).length = 4
    omega
  · rw [List.all_eq_true]
    intro ch hch
    rcases List.mem_append.mp hch with hrep | hdig
    · rw [List.eq_of_mem_replicate hrep]
      decide
    · exact hspec.2 ch hdig

/-! ## Data model (`api/models.py`)

`ToolInfo`, `GenerateProjectRequest` and `GenerateProjectResponse` are the
pydantic models of `api/models.py`. Optional string fields are `Option
String` (`None` maps to `none`); pydantic defaults are applied at the
construction sites, mirroring the Python code. -/

structure ToolInfo where
  name : String
  description : String
deriving DecidableEq

structure GenerateProjectRequest where
  agent_name : String
  description : String
  prompt : String
  tools : List ToolInfo
  create_git_repo : Bool
  git_repo_name : Option String
  github_token : Option String
  github_org : Option String
  github_enterprise_url : Option String
deriving DecidableEq

structure GenerateProjectResponse where
  project_name : String
  download_url : String
  git_repo_url : Option String
  git_folder_name : Option String
  files_generated : Nat
  message : String
deriving DecidableEq

/-- Modelled from the spec: `generator.py` imports `ToolDefinition` from
`.models`, but the given `models.py` does not define it; the fields are
those the spec's ToolSpec names plus the two further fields
`generate_tool_function` reads (`parameters`, `implementation`). -/
structure ToolDefinition where
  name : String
  description : String
  parameters : String
  implementation : String
deriving DecidableEq

/-- Modelled from the spec: the environment-variable records consumed by
`generate_agent_code` (`request.env_vars`); fields are the three the code
reads (`name`, `description`, `default_value`). -/
structure EnvVar where
  name : String
  description : String
  default_value : String
deriving DecidableEq

/-- Modelled from the spec: `generator.py` imports `GenerateAgentRequest`
from `.models`, but the given `models.py` does not define it; the fields
are exactly those `generate_agent_code` reads. The two optional text
fields go through Python `or` with a boilerplate default, hence `Option
String`. -/
structure GenerateAgentRequest where
  project_name : String
  agent_type : String
  env_vars : List EnvVar
  tools : List ToolDefinition
  agent_description : Option String
  agent_instruction : Option String
deriving DecidableEq

/-! ## Stand-alone code generator (`api/generator.py`) -/

/-- `generator.generate_tool_function`. -/
def generate_tool_function (tool : ToolDefinition) : String :=
  "\ndef " ++ tool.name ++ "(" ++ tool.parameters ++ ") -> str:\n    \x22\x22\x22"
    ++ tool.description ++ "\x22\x22\x22\n" ++ tool.implementation ++ "\n"

/-- The line `generate_agent_code` emits for one custom environment
variable (`generator.py` lines 115-124): the default is wrapped in quotes
unless `default_val.isdigit()` or it is exactly `"True"`/`"False"`. -/
def envVarLine (ev : EnvVar) : String :=
  let default_val :=
    if !(pyIsDigitStr ev.default_value) && ev.default_value ≠ "True"
        && ev.default_value ≠ "False" then
      "\x22" ++ ev.default_value ++ "\x22"
    else
      ev.default_value
  let comment :=
    if !ev.description.data.isEmpty then "  # " ++ ev.description else ""
  pyLowerStr ev.name ++ " = os.getenv(\x22" ++ ev.name ++ "\x22, " ++ default_val ++ ")"
    ++ comment

/-- The license header, module docstring and `import os` lines
(`generator.py` lines 48-66). -/
def headerParts (project_name : String) : List String :=
  ["# Copyright 2025 Google LLC",
   "#",
   "# Licensed under the Apache License, Version 2.0 (the \x22License\x22);",
   "# you may not use this file except in compliance with the License.",
   "# You may obtain a copy of the License at",
   "#",
   "#     http://www.apache.org/licenses/LICENSE-2.0",
   "#",
   "# Unless required by applicable law or agreed to in writing, software",
   "# distributed under the License is distributed on an \x22AS IS\x22 BASIS,",
   "# WITHOUT WARRANTIES OR CONDITIONS OF ANY KIND, either express or implied.",
   "# See the License for the specific language governing permissions and",
   "# limitations under the License.",
   "",
   "\x22\x22\x22Generated agent for " ++ project_name ++ ".\x22\x22\x22",
   "",
   "import os"]

/-- The two hard-coded default tools (`generator.py` lines 146-181),
emitted when the request has no tools. -/
def defaultToolsParts : List String :=
  ["def get_weather(query: str) -> str:",
   "    \x22\x22\x22Simulates a web search. Use it get information on weather.",
   "",
   "    Args:",
   "        query: A string containing the location to get weather information for.",
   "",
   "    Returns:",
   "        A string with the simulated weather information for the queried location.",
   "    \x22\x22\x22",
   "    if \x22sf\x22 in query.lower() or \x22san francisco\x22 in query.lower():",
   "        return \x22It\x27s 60 degrees and foggy.\x22",
   "    return \x22It\x27s 90 degrees and sunny.\x22",
   "",
   "",
   "def get_current_time(query: str) -> str:",
   "    \x22\x22\x22Simulates getting the current time for a city.",
   "",
   "    Args:",
   "        city: The name of the city to get the current time for.",
   "",
   "    Returns:",
   "        A string with the current time information.",
   "    \x22\x22\x22",
   "    if \x22sf\x22 in query.lower() or \x22san francisco\x22 in query.lower():",
   "        tz_identifier = \x22America/Los_Angeles\x22",
   "    else:",
   "        return f\x22Sorry, I don\x27t have timezone information for query: \x7bquery\x7d.\x22",
   "",
   "    tz = ZoneInfo(tz_identifier)",
   "    now = datetime.datetime.now(tz)",
   "    return f\x22The current time for query \x7bquery\x7d is \x7bnow.strftime(\x27%Y-%m-%d %H:%M:%S %Z%z\x27)\x7d\x22",
   ""]

/-- The env-configuration section (`generator.py` lines 105-112). -/
def envSectionParts : List String :=
  ["# Get LLM configuration from environment variables",
   "llm_endpoint = os.getenv(\x22LLM_ENDPOINT_URL\x22, \x22http://localhost:8001/v1\x22)",
   "llm_model = os.getenv(\x22LLM_MODEL_NAME\x22, \x22openai/llama-3.1-8b\x22)",
   "llm_api_key = os.getenv(\x22LLM_API_KEY\x22, \x22not-needed\x22)"]

/-- The LiteLlm construction block (`generator.py` lines 126-138). -/
def llmBlockParts : List String :=
  ["",
   "# Use ADK\x27s built-in LiteLLM support!",
   "# LiteLlm supports 100+ providers: OpenAI, Anthropic, vLLM, Ollama, X.AI, etc.",
   "llm = LiteLlm(",
   "    model=llm_model,",
   "    api_key=llm_api_key,",
   "    api_base=llm_endpoint,",
   ")",
   ""]

/-- The list `code_parts` built by `generator.generate_agent_code`
(`generator.py` lines 47-228), before the final `"\n".join`. -/
def generate_agent_code_parts (request : GenerateAgentRequest) : List String :=
  let code_parts := headerParts request.project_name
  let code_parts := code_parts ++
    (if request.tools.isEmpty then
      ["import datetime", "from zoneinfo import ZoneInfo"]
    else [])
  let code_parts := code_parts ++ [""]
  let code_parts := code_parts ++
    (if request.agent_type = "adk_a2a_base" then
      ["from google.adk.agents import Agent",
       "from google.adk.models.lite_llm import LiteLlm",
       "from google.adk.a2a.utils.agent_to_a2a import to_a2a",
       "",
       "from dotenv import load_dotenv",
       "load_dotenv()",
       ""]
    else if request.agent_type = "adk_base" then
      ["from google.adk.agents import Agent",
       "from google.adk.models.lite_llm import LiteLlm",
       "",
       "from dotenv import load_dotenv",
       "load_dotenv()",
       ""]
    else [])
  let code_parts := code_parts ++ envSectionParts
  let code_parts := code_parts ++ request.env_vars.map envVarLine
  let code_parts := code_parts ++ llmBlockParts
  let code_parts := code_parts ++
    (if !request.tools.isEmpty then request.tools.map generate_tool_function
     else defaultToolsParts)
  let tool_names :=
    if !request.tools.isEmpty then request.tools.map (fun t => t.name)
    else ["get_weather", "get_current_time"]
  let tools_list := pyJoin ", " tool_names
  let description := pyOrStr request.agent_description
    "An agent that can provide information about the weather and time."
  let instruction := pyOrStr request.agent_instruction
    "You are a helpful AI assistant designed to provide accurate and useful information."
  let code_parts := code_parts ++
    [(if request.agent_type = "adk_a2a_base" then
        "# Create ADK agent with A2A protocol support"
      else "# Create ADK agent"),
     "root_agent = Agent(",
     "    name=\x22root_agent\x22,",
     "    model=llm,",
     "    description=\x22" ++ description ++ "\x22,",
     "    instruction=\x22" ++ instruction ++ "\x22,",
     "    tools=[" ++ tools_list ++ "],",
     ")",
     ""]
  let code_parts := code_parts ++
    (if request.agent_type = "adk_a2a_base" then
      ["# Convert ADK agent to A2A application",
       "# This enables the agent to communicate with other agents using the Agent2Agent protocol",
       "a2a_app = to_a2a(root_agent, port=int(os.getenv(\x22PORT\x22, \x228001\x22)))",
       "app = a2a_app",
       ""]
    else ["app = root_agent", ""])
  code_parts

/-- `generator.generate_agent_code`: the joined source text. -/
def generate_agent_code (request : GenerateAgentRequest) : String :=
  pyJoin "\n" (generate_agent_code_parts request)

/-! ## The `adk_a2a_base` agent template
(`deployment_targets/on_premise/agents/adk_a2a_base/app/agent.py`)

The template file is transcribed verbatim, grouped into consecutive
segments whose boundaries line up with the boilerplate substrings the
customization step searches for (`TEMPLATE` is the concatenation, equal to
the file's 3340 characters; the segmentation is pure regrouping). Line
lists hold the file's physical lines; joins reinsert the newlines. -/

def TL_1_47 : List String := [
  "# Copyright 2025 Google LLC",
  "#",
  "# Licensed under the Apache License, Version 2.0 (the \x22License\x22);",
  "# you may not use this file except in compliance with the License.",
  "# You may obtain a copy of the License at",
  "#",
  "#     http://www.apache.org/licenses/LICENSE-2.0",
  "#",
  "# Unless required by applicable law or agreed to in writing, software",
  "# distributed under the License is distributed on an \x22AS IS\x22 BASIS,",
  "# WITHOUT WARRANTIES OR CONDITIONS OF ANY KIND, either express or implied.",
  "# See the License for the specific language governing permissions and",
  "# limitations under the License.",
  "",
  "\x22\x22\x22ADK Agent with Agent2Agent (A2A) Protocol for on-premise deployment.",
  "",
  "This agent combines:",
  "- LiteLLM for OpenAI-compatible endpoints (vLLM, Ollama, local LLMs, etc.)",
  "- Agent2Agent (A2A) protocol for agent collaboration",
  "",
  "Based on patterns from: https://github.com/a2aproject/a2a-samples",
  "\x22\x22\x22",
  "",
  "import datetime",
  "import os",
  "from zoneinfo import ZoneInfo",
  "",
  "from dotenv import load_dotenv",
  "from google.adk.agents import Agent",
  "from google.adk.a2a.utils.agent_to_a2a import to_a2a",
  "from google.adk.models.lite_llm import LiteLlm",
  "",
  "# Load environment variables from .env file",
  "load_dotenv()",
  "",
  "# Get LLM configuration from environment variables",
  "llm_endpoint = os.getenv(\x22LLM_ENDPOINT_URL\x22, \x22http://localhost:8001/v1\x22)",
  "llm_model = os.getenv(\x22LLM_MODEL_NAME\x22, \x22openai/llama-3.1-8b\x22)",
  "llm_api_key = os.getenv(\x22LLM_API_KEY\x22, \x22not-needed\x22)",
  "",
  "# Use ADK\x27s built-in LiteLLM support!",
  "# LiteLlm supports 100+ providers: OpenAI, Anthropic, vLLM, Ollama, X.AI, etc.",
  "llm = LiteLlm(",
  "    model=llm_model,",
  "    api_key=llm_api_key,",
  "    api_base=llm_endpoint,",
  ")"
]
def TL_50_82 : List String := [
  "def get_weather(query: str) -> str:",
  "    \x22\x22\x22Simulates a web search. Use it get information on weather.",
  "",
  "    Args:",
  "        query: A string containing the location to get weather information for.",
  "",
  "    Returns:",
  "        A string with the simulated weather information for the queried location.",
  "    \x22\x22\x22",
  "    if \x22sf\x22 in query.lower() or \x22san francisco\x22 in query.lower():",
  "        return \x22It\x27s 60 degrees and foggy.\x22",
  "    return \x22It\x27s 90 degrees and sunny.\x22",
  "",
  "",
  "def get_current_time(query: str) -> str:",
  "    \x22\x22\x22Simulates getting the current time for a city.",
  "",
  "    Args:",
  "        city: The name of the city to get the current time for.",
  "",
  "    Returns:",
  "        A string with the current time information.",
  "    \x22\x22\x22",
  "    if \x22sf\x22 in query.lower() or \x22san francisco\x22 in query.lower():",
  "        tz_identifier = \x22America/Los_Angeles\x22",
  "    else:",
  "        return f\x22Sorry, I don\x27t have timezone information for query: \x7bquery\x7d.\x22",
  "",
  "    tz = ZoneInfo(tz_identifier)",
  "    now = datetime.datetime.now(tz)",
  "    return f\x22The current time for query \x7bquery\x7d is \x7bnow.strftime(\x27%Y-%m-%d %H:%M:%S %Z%z\x27)\x7d\x22",
  "",
  ""
]
def TL_84_86 : List String := [
  "root_agent = Agent(",
  "    name=\x22root_agent\x22,",
  "    model=llm,  # Use LiteLlm instance for OpenAI-compatible endpoints"
]
def TL_92_95 : List String := [
  "# Convert ADK agent to A2A application",
  "# This enables the agent to communicate with other agents using the Agent2Agent protocol",
  "# Works with any OpenAI-compatible LLM endpoint (vLLM, Ollama, LocalAI, etc.)",
  "a2a_app = to_a2a(root_agent, port=int(os.getenv(\x22PORT\x22, \x228001\x22)))"
]

/-- Template lines 1-47 followed by the newlines of lines 47 and 48: the
prefix of the file ending right after the `LiteLlm(...)` block's `)` and
one blank line — exactly the cut `parts[0][:llm_section_end]` keeps. -/
def P0CUT : String := pyJoin "\n" TL_1_47 ++ "\n\n"

/-- The blank line 49 and the two default tool functions, template lines
50-82 (the part the customization step deletes when tools are supplied). -/
def DEFSB : String := "\n" ++ pyJoin "\n" TL_50_82 ++ "\n"

/-- Everything before the `# Create ADK agent` marker comment. -/
def THEAD : String := P0CUT ++ DEFSB

/-- `project_generator.customize_agent_file`'s marker
`agent_creation_marker = "# Create ADK agent"` (a prefix of the template's
line 83). -/
def agentMarker : String := "# Create ADK agent"

/-- Rest of line 83 after the marker, lines 84-86, and the indent of line
87 up to the description boilerplate. -/
def MIDA : String := " with LiteLLM and A2A protocol support\n" ++ pyJoin "\n" TL_84_86 ++ "\n    "

/-- The description boilerplate replaced by `customize_agent_file`
(template line 87). -/
def descPat : String := "description=\x22An agent that can provide information about the weather and time.\x22"

/-- Between the description and instruction boilerplate: end of line 87,
indent of line 88. -/
def TBMID : String := ",\n    "

/-- The instruction boilerplate replaced by `customize_agent_file`
(template line 88). -/
def instrPat : String := "instruction=\x22You are a helpful AI assistant designed to provide accurate and useful information.\x22"

/-- End of line 88, indent of line 89. -/
def TCA : String := ",\n    "

/-- The default tools list replaced by `customize_agent_file` (template
line 89). -/
def toolsPat : String := "tools=[get_weather, get_current_time]"

/-- End of line 89, lines 90-96: the close of the `Agent(...)` call and
the `to_a2a` tail. -/
def TCB : String := ",\n)\n\n" ++ pyJoin "\n" TL_92_95 ++ "\n\n"

/-- The full template file content. -/
def TEMPLATE : String :=
  THEAD ++ agentMarker ++ MIDA ++ descPat ++ TBMID ++ instrPat ++ TCA ++ toolsPat ++ TCB

/-! ## Project generation and customization (`api/project_generator.py`) -/

/-- `project_generator.generate_tool_stub`. -/
def generate_tool_stub (tool : ToolInfo) : String :=
  "\ndef " ++ tool.name ++ "(query: str) -> str:\n    \x22\x22\x22" ++ tool.description
    ++ "\n\n    Args:\n        query: Input query for the tool\n\n    Returns:\n        Tool result as a string\n    \x22\x22\x22\n    # TODO: Implement "
    ++ tool.name ++ "\n    return f\x22Result from " ++ tool.name ++ ": \x7bquery\x7d\x22\n"

/-- The tools branch of `customize_agent_file` (`project_generator.py`
lines 140-158): split at the marker, cut `parts[0]` right after the last
`")\n\n"` (the end of the `LiteLlm` block), append the generated stubs,
rewrite the default tools list in `parts[1]`, and rejoin every part with
the marker. -/
def customizeWithTools (content : String) (req : GenerateProjectRequest) : String :=
  if containsSub content agentMarker then
    let parts := pySplit content agentMarker
    let p0 := parts.headD ""
    let llm_section_end := pyRFind p0 ")\n\n" + 3
    let p0 := pySliceTo p0 llm_section_end
    let tool_functions := req.tools.map generate_tool_stub
    let p0 := p0 ++ pyJoin "\n" tool_functions ++ "\n\n"
    let tools_list_str := pyJoin ", " (req.tools.map (fun t => t.name))
    let p1 := (parts.drop 1).headD ""
    let p1 := pyReplace p1 toolsPat ("tools=[" ++ tools_list_str ++ "]")
    pyJoin agentMarker (p0 :: p1 :: parts.drop 2)
  else content

/-- The text transformation performed by
`project_generator.customize_agent_file` (the read and write around it are
identity on the text): replace the description and instruction
boilerplate, then, if tools were supplied, rewrite the tools section. -/
def customizeContent (content : String) (req : GenerateProjectRequest) : String :=
  let c1 := pyReplace content descPat ("description=\x22" ++ req.description ++ "\x22")
  let c2 := pyReplace c1 instrPat ("instruction=\x22" ++ req.prompt ++ "\x22")
  if !req.tools.isEmpty then customizeWithTools c2 req else c2

/-! ## Request handler (`api/main.py`) and local git publish -/

/-- The Python exceptions that flow through the request path. -/
inductive PyErr where
  | httpExc (status : Nat) (detail : String)
  | runtime (msg : String)
  | calledProcess (msg : String)
deriving DecidableEq

/-- `f"{e!s}"` for those exceptions, as interpolated by the handler's
blanket `except` clause (for an `HTTPException`, Starlette renders
`"<status>: <detail>"`). -/
def pyErrStr : PyErr → String
  | .httpExc status detail => natDec status ++ ": " ++ detail
  | .runtime msg => msg
  | .calledProcess msg => msg

/-- Outcome oracle for the external effects of one request: the
cookiecutter run (error text, or the generated-file count the handler gets
back) and the exit status of each git command `create_git_repository`
runs. -/
structure ApiWorld where
  cookiecutter : Except String Nat
  gitInit : Bool
  gitConfigName : Bool
  gitConfigEmail : Bool
  gitAdd : Bool
  gitCommit : Bool

/-- One `subprocess.run([...], check=True, capture_output=True)` call: a
failing command raises `CalledProcessError` (its message standing for the
captured diagnostics). -/
def runCmd (ok : Bool) (label : String) : Except PyErr Unit :=
  if ok then .ok () else .error (.calledProcess label)

/-- `project_generator.create_git_repository`: five git commands in
sequence inside `try`; any `CalledProcessError` is caught and yields
`None`; on success the local `file://` URL is returned. The `repo_name`
parameter is accepted and never read, as in the source. -/
def create_git_repository (project_path : String) (_repo_name : Option String)
    (w : ApiWorld) : Except PyErr (Option String) :=
  let attempt : Except PyErr (Option String) := do
    runCmd w.gitInit "git init"
    runCmd w.gitConfigName "git config user.name"
    runCmd w.gitConfigEmail "git config user.email"
    runCmd w.gitAdd "git add ."
    runCmd w.gitCommit "git commit -m"
    pure (some ("file://" ++ project_path))
  match attempt with
  | .error (.calledProcess _) => .ok none
  | r => r

/-- Externally visible side effects of the request path, in order. -/
inductive ApiEffect where
  | mkdirProjects
  | runCookiecutter
  | writeZip
  | gitPublish
deriving DecidableEq

/-- `TEMP_DIR / "projects" / agent_name` rendered as a path string; the
process temp root (`tempfile.gettempdir()`-derived in Python) is a
parameter. -/
def projectPath (tempDir agent_name : String) : String :=
  tempDir ++ "/projects/" ++ agent_name

/-- The `try` body of `main.generate_agent_project` (`main.py` lines
120-155): agent-name validation first, then generation, zip and the
optional local git publish. Returns the response or the raised exception,
together with the ordered external effects performed up to that point. -/
def generateTryBody (req : GenerateProjectRequest) (w : ApiWorld) (tempDir : String) :
    Except PyErr GenerateProjectResponse × List ApiEffect :=
  if !(pyIsAlnum (pyReplace (pyReplace req.agent_name "-" "") "_" "")) then
    (.error (.httpExc 400
      "Agent name must contain only alphanumeric characters, hyphens, and underscores"), [])
  else
    match w.cookiecutter with
    | .error msg =>
      (.error (.runtime ("Failed to create project: " ++ msg)),
       [.mkdirProjects, .runCookiecutter])
    | .ok file_count =>
      let download_url := "/downloads/" ++ req.agent_name ++ ".zip"
      let base : List ApiEffect := [.mkdirProjects, .runCookiecutter, .writeZip]
      if req.create_git_repo then
        let repo_name := pyOrStr req.git_repo_name req.agent_name
        match create_git_repository (projectPath tempDir req.agent_name) (some repo_name) w with
        | .ok git_repo_url =>
          (.ok { project_name := req.agent_name,
                 download_url := download_url,
                 git_repo_url := git_repo_url,
                 git_folder_name := none,
                 files_generated := file_count,
                 message := "Project \x27" ++ req.agent_name ++ "\x27 generated successfully!" },
           base ++ [.gitPublish])
        | .error e => (.error e, base ++ [.gitPublish])
      else
        (.ok { project_name := req.agent_name,
               download_url := download_url,
               git_repo_url := none,
               git_folder_name := none,
               files_generated := file_count,
               message := "Project \x27" ++ req.agent_name ++ "\x27 generated successfully!" },
         base)

/-- `main.generate_agent_project`: the `try` body wrapped in the blanket
`except Exception` (`main.py` lines 157-160), which re-raises every
failure — including the validation `HTTPException(400)` — as
`HTTPException(500, f"Project generation failed: {e!s}")`. The value is
the HTTP outcome: a response, or the final error status and detail. In the
response construction (`main.py` lines 149-155) `git_folder_name` is not
passed, so the pydantic default `None` applies. -/
def generate_agent_project (req : GenerateProjectRequest) (w : ApiWorld) (tempDir : String) :
    Except (Nat × String) GenerateProjectResponse × List ApiEffect :=
  match generateTryBody req w tempDir with
  | (.ok r, effs) => (.ok r, effs)
  | (.error e, effs) => (.error (500, "Project generation failed: " ++ pyErrStr e), effs)

/-! ## GitHub folder publish (`api/github_helper.py`) -/

/-- An HTTP response as seen by `_get_github_username`: status code, body
text, and the `login` field of the decoded JSON body (abstracting
`response.json()["login"]`). -/
structure HttpResponse where
  status_code : Nat
  text : String
  login : String
deriving DecidableEq

/-- `github_helper._get_github_username`: one authenticated `GET /user`
against the REST API base; 200 yields the `login` field, anything else
raises `RuntimeError` carrying the status code and the response body.
Returns the result together with the HTTP requests performed, each
recorded as (URL, bearer token). -/
def getGithubUsername (github_token : String) (github_enterprise_url : Option String)
    (resp : HttpResponse) : Except PyErr String × List (String × String) :=
  let api_base := match github_enterprise_url with
    | some u =>
      if !u.data.isEmpty then rstripSlashes u ++ "/api/v3" else "https://api.github.com"
    | none => "https://api.github.com"
  let calls := [(api_base ++ "/user", github_token)]
  if resp.status_code = 200 then
    (.ok resp.login, calls)
  else
    (.error (.runtime ("Failed to get GitHub username: " ++ natDec resp.status_code
      ++ " " ++ resp.text)), calls)

/-- A file-system entry: a file with opaque content, or a directory of
named entries. -/
inductive FsEntry where
  | file (content : String)
  | dir (entries : List (String × FsEntry))

def lookupFs (entries : List (String × FsEntry)) (name : String) : Option FsEntry :=
  (entries.find? (fun e => e.1 == name)).map (fun e => e.2)

/-- Place `v` under `name`, replacing an existing entry of that name. -/
def setFs (entries : List (String × FsEntry)) (name : String) (v : FsEntry) :
    List (String × FsEntry) :=
  if entries.any (fun e => e.1 == name) then
    entries.map (fun e => if e.1 == name then (name, v) else e)
  else entries ++ [(name, v)]

/-- The copy loop of `push_agent_to_github` (`github_helper.py` lines
93-100): every top-level item of the project directory except `.git` is
copied into the agent folder — `copy2` for files, `copytree(...,
dirs_exist_ok=True)` for directories. The destination is the folder
`mkdir` just created inside a fresh clone; each copy therefore places the
item itself (the random-suffix-collision merge inside an existing folder
of the same name is not modelled more finely than wholesale replacement). -/
def copyProjectItems (project : List (String × FsEntry))
    (dest : List (String × FsEntry)) : List (String × FsEntry) :=
  project.foldl
    (fun acc item => if item.1 = ".git" then acc else setFs acc item.1 item.2)
    dest

/-- Outcome oracle for one `push_agent_to_github` call: the token
environment fallback, the `GET /user` response (when consulted), the
`random.randint(0, 9999)` draw, the clone outcome (stderr text or the
cloned tree), and the exit status of each later git command. -/
structure PushWorld where
  envGithubToken : Option String
  userResponse : HttpResponse
  randSuffix : Nat
  cloneResult : Except String (List (String × FsEntry))
  configNameOk : Bool
  configEmailOk : Bool
  addOk : Bool
  commitOk : Bool
  pushOk : Bool

/-- The clone-copy-commit-push phase of `push_agent_to_github`
(`github_helper.py` lines 75-147), entered once the token and the
repository owner are resolved: clone into a temporary workspace, create
the agent folder, copy the project into it, configure the commit identity,
stage the folder, commit and push; every `CalledProcessError` is re-raised
as `RuntimeError("Failed to push to GitHub: ...")`. On success the folder
name and its browse URL are returned; `calls` carries through the HTTP
requests already performed. -/
def pushClonePhase (projectTree : List (String × FsEntry))
    (repo_owner github_base agent_name repo_name branch : String)
    (w : PushWorld) (calls : List (String × String)) :
    Except PyErr (String × String) × List (String × String) :=
  let html_url := github_base ++ "/" ++ repo_owner ++ "/" ++ repo_name
  let folder_name := agent_name ++ "-" ++ format04d w.randSuffix
  match w.cloneResult with
  | .error stderr =>
    (.error (.runtime ("Failed to push to GitHub: " ++ stderr)), calls)
  | .ok cloneTree =>
    let dest0 := match lookupFs cloneTree folder_name with
      | some (.dir entries) => entries
      | _ => []
    let _agent_folder := copyProjectItems projectTree dest0
    let gitSteps : Except PyErr Unit := do
      runCmd w.configNameOk "git config user.name"
      runCmd w.configEmailOk "git config user.email"
      runCmd w.addOk ("git add " ++ folder_name)
      runCmd w.commitOk ("git commit -m Add agent: " ++ folder_name)
      runCmd w.pushOk ("git push origin " ++ branch)
    match gitSteps with
    | .error (.calledProcess msg) =>
      (.error (.runtime ("Failed to push to GitHub: " ++ msg)), calls)
    | .error e => (.error e, calls)
    | .ok _ =>
      (.ok (folder_name, html_url ++ "/tree/" ++ branch ++ "/" ++ folder_name), calls)

/-- `github_helper.push_agent_to_github`: token resolution (explicit
parameter `or` the `GITHUB_TOKEN` environment value; absence raises
`RuntimeError`), base-URL and owner resolution (explicit organization
`or` the authenticated user from `GET /user`), then the clone phase
(`pushClonePhase`). Returns `(folder_name, folder_url)` together with the
REST calls performed. -/
def push_agent_to_github (projectTree : List (String × FsEntry))
    (agent_name repo_name : String)
    (github_token github_org github_enterprise_url : Option String)
    (branch : String) (w : PushWorld) :
    Except PyErr (String × String) × List (String × String) :=
  match pyOrOpt github_token w.envGithubToken with
  | none => (.error (.runtime "GitHub token is required for push"), [])
  | some token =>
    let github_base := match github_enterprise_url with
      | some u => if !u.data.isEmpty then rstripSlashes u else "https://github.com"
      | none => "https://github.com"
    let ownerCalls : Except PyErr String × List (String × String) :=
      match github_org with
      | some org =>
        if !org.data.isEmpty then (.ok org, [])
        else getGithubUsername token github_enterprise_url w.userResponse
      | none => getGithubUsername token github_enterprise_url w.userResponse
    match ownerCalls with
    | (.error e, calls) => (.error e, calls)
    | (.ok repo_owner, calls) =>
      pushClonePhase projectTree repo_owner github_base agent_name repo_name branch w calls

/-! ## Claims -/

/-- Every successful `try`-body outcome carries `git_folder_name = none`:
the response construction never passes that field. -/
lemma tryBody_git_folder_name_none (req : GenerateProjectRequest) (w : ApiWorld)
    (tempDir : String) (r : GenerateProjectResponse) (effs : List ApiEffect)
    (h : generateTryBody req w tempDir = (.ok r, effs)) :
    r.git_folder_name = none := by
  unfold generateTryBody at h
  by_cases hv : (!pyIsAlnum (pyReplace (pyReplace req.agent_name "-" "") "_" "")) = true
  · rw [if_pos hv] at h
    simp at h
  · rw [if_neg hv] at h
    cases hck : w.cookiecutter with
    | error msg =>
      rw [hck] at h
      simp at h
    | ok n =>
      rw [hck] at h
      try dsimp only at h
      by_cases hg : req.create_git_repo = true
      · rw [if_pos hg] at h
        cases hcg : create_git_repository (projectPath tempDir req.agent_name)
            (some (pyOrStr req.git_repo_name req.agent_name)) w with
        | ok u =>
          rw [hcg] at h
          try dsimp only at h
          obtain ⟨h1, _⟩ := Prod.mk.injEq .. |>.mp h
          rw [← Except.ok.inj h1]
        | error e =>
          rw [hcg] at h
          simp at h
      · rw [if_neg hg] at h
        try dsimp only at h
        obtain ⟨h1, _⟩ := Prod.mk.injEq .. |>.mp h
        rw [← Except.ok.inj h1]

/-- C9: in every response returned by the generation endpoint,
`git_folder_name` is absent (`None`), regardless of whether
`create_git_repo` was requested or whether repository creation
succeeded. -/
theorem C9_git_folder_name_always_none (req : GenerateProjectRequest) (w : ApiWorld)
    (tempDir : String) (r : GenerateProjectResponse) (effs : List ApiEffect)
    (h : generate_agent_project req w tempDir = (.ok r, effs)) :
    r.git_folder_name = none := by
  unfold generate_agent_project at h
  cases htb : generateTryBody req w tempDir with
  | mk res effs2 =>
    rw [htb] at h
    cases res with
    | ok r2 =>
      dsimp only at h
      obtain ⟨h1, _⟩ := Prod.mk.injEq .. |>.mp h
      rw [← Except.ok.inj h1]
      exact tryBody_git_folder_name_none req w tempDir r2 effs2 htb
    | error e =>
      dsimp only at h
      simp at h

/-- Fixture: a well-formed request without git publishing. -/
def okRequest : GenerateProjectRequest :=
  { agent_name := "weather-agent",
    description := "An agent that reports weather",
    prompt := "You are a weather bot",
    tools := [],
    create_git_repo := false,
    git_repo_name := none,
    github_token := none,
    github_org := none,
    github_enterprise_url := none }

/-- Fixture: every external step succeeds; cookiecutter reports 25 files. -/
def okWorld : ApiWorld :=
  { cookiecutter := .ok 25,
    gitInit := true, gitConfigName := true, gitConfigEmail := true,
    gitAdd := true, gitCommit := true }

theorem C9_witness :
    (∃ r effs, generate_agent_project okRequest okWorld "/tmp/agent-starter-pack-api"
        = (.ok r, effs) ∧ r.git_folder_name = none) :=
  ⟨{ project_name := "weather-agent",
     download_url := "/downloads/weather-agent.zip",
     git_repo_url := none, git_folder_name := none, files_generated := 25,
     message := "Project \x27weather-agent\x27 generated successfully!" },
   [.mkdirProjects, .runCookiecutter, .writeZip], rfl,
   C9_git_folder_name_always_none okRequest okWorld "/tmp/agent-starter-pack-api" _ _ rfl⟩

/-- C10: agent source generation is deterministic — two calls of
`generate_agent_code` on componentwise-equal requests produce identical
source text (`generator.py` performs pure string construction; no
randomness, time, or environment enters the output). -/
theorem C10_generation_deterministic (r1 r2 : GenerateAgentRequest)
    (h1 : r1.project_name = r2.project_name) (h2 : r1.agent_type = r2.agent_type)
    (h3 : r1.env_vars = r2.env_vars) (h4 : r1.tools = r2.tools)
    (h5 : r1.agent_description = r2.agent_description)
    (h6 : r1.agent_instruction = r2.agent_instruction) :
    generate_agent_code r1 = generate_agent_code r2 := by
  cases r1
  cases r2
  dsimp only at h1 h2 h3 h4 h5 h6
  subst h1 h2 h3 h4 h5 h6
  rfl

/-- Fixture: a generator request, written out twice below so the witness
equates two distinct terms. -/
def genReqA : GenerateAgentRequest :=
  { project_name := "weather-agent", agent_type := "adk_a2a_base",
    env_vars := [⟨"TIMEOUT", "seconds", "30"⟩],
    tools := [⟨"get_forecast", "Get forecast", "query: str", "    return query"⟩],
    agent_description := some "An agent that reports weather",
    agent_instruction := some "You are a weather bot" }

def genReqB : GenerateAgentRequest :=
  { project_name := "weather-agent", agent_type := "adk_a2a_base",
    env_vars := [⟨"TIMEOUT", "seconds", "30"⟩],
    tools := [⟨"get_forecast", "Get forecast", "query: str", "    return query"⟩],
    agent_description := some "An agent that reports weather",
    agent_instruction := some "You are a weather bot" }

theorem C10_witness :
    genReqA.project_name = genReqB.project_name ∧
    generate_agent_code genReqA = generate_agent_code genReqB :=
  ⟨rfl, C10_generation_deterministic genReqA genReqB rfl rfl rfl rfl rfl rfl⟩

/-- Fixture: a request whose agent name contains a space and an
exclamation mark — outside `[A-Za-z0-9_-]`. -/
def badNameRequest : GenerateProjectRequest :=
  { agent_name := "bad name!",
    description := "d", prompt := "p", tools := [],
    create_git_repo := false, git_repo_name := none, github_token := none,
    github_org := none, github_enterprise_url := none }

/-- C2 (code bug): an invalid agent name is rejected before any filesystem
or network effect (the effect trace is empty), but the rejection reaches
the client as HTTP 500, not a 4xx: the handler's own
`HTTPException(400, ...)` is swallowed by its blanket `except Exception`
and re-raised as `HTTPException(500, f"Project generation failed: {e!s}")`,
whatever the state of the outside world. -/
theorem C2_invalid_name_rejected_with_500 (w : ApiWorld) (tempDir : String) :
    generate_agent_project badNameRequest w tempDir
      = (.error (500,
          "Project generation failed: 400: Agent name must contain only alphanumeric characters, hyphens, and underscores"),
         ([] : List ApiEffect)) := rfl

/-- The local publish call never raises: whatever each git command does,
`create_git_repository` returns a value (`some url` or `None`). -/
lemma create_git_repository_isOk (path : String) (rn : Option String) (w : ApiWorld) :
    ∃ v, create_git_repository path rn w = .ok v := by
  obtain ⟨ck, b1, b2, b3, b4, b5⟩ := w
  unfold create_git_repository runCmd
  cases b1 <;> cases b2 <;> cases b3 <;> cases b4 <;> cases b5 <;>
    simp [Bind.bind, Except.bind, Pure.pure, Except.pure]

/-- When any of the five git commands fails, the local publish yields
`None`. -/
lemma create_git_repository_none (path : String) (rn : Option String) (w : ApiWorld)
    (hfail : ¬(w.gitInit = true ∧ w.gitConfigName = true ∧ w.gitConfigEmail = true
      ∧ w.gitAdd = true ∧ w.gitCommit = true)) :
    create_git_repository path rn w = .ok none := by
  obtain ⟨ck, b1, b2, b3, b4, b5⟩ := w
  dsimp only at hfail
  unfold create_git_repository runCmd
  cases b1 <;> cases b2 <;> cases b3 <;> cases b4 <;> cases b5 <;>
    simp_all [Bind.bind, Except.bind]

/-- C4: a git failure in the local-only publish path never raises out of
`create_git_repository` (first conjunct: the call always returns), the
failed publish returns the absent result `None` (second conjunct), and
the handler's overall response still reports success for generation and
archival — HTTP 200 payload with the success message, the file count, the
download URL, and no `git_repo_url` (third conjunct). -/
theorem C4_local_publish_failure_nonfatal (req : GenerateProjectRequest) (w : ApiWorld)
    (tempDir : String) (n : Nat)
    (hvalid : pyIsAlnum (pyReplace (pyReplace req.agent_name "-" "") "_" "") = true)
    (hck : w.cookiecutter = .ok n)
    (hgit : req.create_git_repo = true)
    (hfail : ¬(w.gitInit = true ∧ w.gitConfigName = true ∧ w.gitConfigEmail = true
      ∧ w.gitAdd = true ∧ w.gitCommit = true)) :
    (∀ (path : String) (rn : Option String) (w2 : ApiWorld),
        ∃ v, create_git_repository path rn w2 = .ok v) ∧
    create_git_repository (projectPath tempDir req.agent_name)
        (some (pyOrStr req.git_repo_name req.agent_name)) w = .ok none ∧
    generate_agent_project req w tempDir
      = (.ok { project_name := req.agent_name,
               download_url := "/downloads/" ++ req.agent_name ++ ".zip",
               git_repo_url := none,
               git_folder_name := none,
               files_generated := n,
               message := "Project \x27" ++ req.agent_name ++ "\x27 generated successfully!" },
         [.mkdirProjects, .runCookiecutter, .writeZip, .gitPublish]) := by
  have hnone := create_git_repository_none (projectPath tempDir req.agent_name)
    (some (pyOrStr req.git_repo_name req.agent_name)) w hfail
  refine ⟨create_git_repository_isOk, hnone, ?_⟩
  unfold generate_agent_project generateTryBody
  rw [if_neg (by simp [hvalid]), hck]
  dsimp only
  rw [if_pos hgit, hnone]
  rfl

/-- Fixture: the git-publishing request. -/
def gitRequest : GenerateProjectRequest :=
  { okRequest with create_git_repo := true, git_repo_name := some "agents-collection" }

/-- Fixture: cookiecutter succeeds but `git commit` fails. -/
def commitFailWorld : ApiWorld :=
  { cookiecutter := .ok 25,
    gitInit := true, gitConfigName := true, gitConfigEmail := true,
    gitAdd := true, gitCommit := false }

theorem C4_witness :
    pyIsAlnum (pyReplace (pyReplace gitRequest.agent_name "-" "") "_" "") = true ∧
    commitFailWorld.cookiecutter = .ok 25 ∧
    gitRequest.create_git_repo = true ∧
    ¬(commitFailWorld.gitInit = true ∧ commitFailWorld.gitConfigName = true
      ∧ commitFailWorld.gitConfigEmail = true ∧ commitFailWorld.gitAdd = true
      ∧ commitFailWorld.gitCommit = true) ∧
    generate_agent_project gitRequest commitFailWorld "/tmp/agent-starter-pack-api"
      = (.ok { project_name := "weather-agent",
               download_url := "/downloads/weather-agent.zip",
               git_repo_url := none,
               git_folder_name := none,
               files_generated := 25,
               message := "Project \x27weather-agent\x27 generated successfully!" },
         [.mkdirProjects, .runCookiecutter, .writeZip, .gitPublish]) :=
  ⟨by decide, rfl, rfl, by decide,
   (C4_local_publish_failure_nonfatal gitRequest commitFailWorld
     "/tmp/agent-starter-pack-api" 25 (by decide) rfl rfl (by decide)).2.2⟩

/-- Fixture: an environment variable with the negative integer default
`"-5"`. -/
def negEnvVar : EnvVar := ⟨"RETRY_DELTA", "", "-5"⟩

/-- Fixture: a generator request carrying `negEnvVar`. -/
def negEnvReq : GenerateAgentRequest :=
  { project_name := "p", agent_type := "adk_a2a_base",
    env_vars := [negEnvVar], tools := [],
    agent_description := none, agent_instruction := none }

/-- C5 counterexample: for the default `"-5"` — which parses as an integer
— the generated line quotes the value (`"-5"` fails Python `isdigit`), so
the claim's unquoted emission does not happen: the quoted line is in the
generated parts and the unquoted line is not. -/
theorem C5_counterexample :
    envVarLine negEnvVar = "retry_delta = os.getenv(\x22RETRY_DELTA\x22, \x22-5\x22)" ∧
    envVarLine negEnvVar ≠ "retry_delta = os.getenv(\x22RETRY_DELTA\x22, -5)" ∧
    "retry_delta = os.getenv(\x22RETRY_DELTA\x22, \x22-5\x22)"
      ∈ generate_agent_code_parts negEnvReq ∧
    "retry_delta = os.getenv(\x22RETRY_DELTA\x22, -5)"
      ∉ generate_agent_code_parts negEnvReq := by
  refine ⟨rfl, by decide, by decide, by decide⟩

/-- C5 (amended): the emitted default is quoted as a string literal unless
it is a plain digit string (Python `isdigit`) or exactly `"True"`/
`"False"`; a negative integer default such as `"-5"` is therefore quoted.
Every environment variable of the request yields exactly this line among
the generated parts. -/
theorem C5_env_default_quoting (req : GenerateAgentRequest) (ev : EnvVar)
    (hmem : ev ∈ req.env_vars) :
    envVarLine ev ∈ generate_agent_code_parts req ∧
    envVarLine ev = pyLowerStr ev.name ++ " = os.getenv(\x22" ++ ev.name ++ "\x22, "
      ++ (if pyIsDigitStr ev.default_value = true ∨ ev.default_value = "True"
              ∨ ev.default_value = "False"
          then ev.default_value
          else "\x22" ++ ev.default_value ++ "\x22")
      ++ ")"
      ++ (if ev.description.data.isEmpty = true then "" else "  # " ++ ev.description) := by
  constructor
  · unfold generate_agent_code_parts
    dsimp only
    have hm : envVarLine ev ∈ req.env_vars.map envVarLine :=
      List.mem_map.mpr ⟨ev, hmem, rfl⟩
    exact List.mem_append_left _ (List.mem_append_left _ (List.mem_append_left _
      (List.mem_append_left _ (List.mem_append_right _ hm))))
  · unfold envVarLine
    by_cases hd : pyIsDigitStr ev.default_value = true
    · simp [hd]
    · by_cases ht : ev.default_value = "True"
      · simp [hd, ht]
      · by_cases hf : ev.default_value = "False"
        · simp [hd, ht, hf]
        · simp [hd, ht, hf]

theorem C5_witness :
    negEnvVar ∈ negEnvReq.env_vars ∧
    (envVarLine negEnvVar ∈ generate_agent_code_parts negEnvReq ∧
     envVarLine negEnvVar = pyLowerStr negEnvVar.name ++ " = os.getenv(\x22"
       ++ negEnvVar.name ++ "\x22, "
       ++ (if pyIsDigitStr negEnvVar.default_value = true
               ∨ negEnvVar.default_value = "True" ∨ negEnvVar.default_value = "False"
           then negEnvVar.default_value
           else "\x22" ++ negEnvVar.default_value ++ "\x22")
       ++ ")"
       ++ (if negEnvVar.description.data.isEmpty = true then ""
           else "  # " ++ negEnvVar.description)) :=
  ⟨by decide, C5_env_default_quoting negEnvReq negEnvVar (by decide)⟩

/-- The clone phase never adds HTTP calls: it returns exactly the calls
performed during owner resolution. -/
lemma pushClonePhase_calls (projectTree : List (String × FsEntry))
    (ro gb an rn br : String) (w : PushWorld) (calls : List (String × String)) :
    (pushClonePhase projectTree ro gb an rn br w calls).2 = calls := by
  unfold pushClonePhase
  dsimp only
  split
  · rfl
  · split <;> rfl

/-- With a resolved token and a Python-falsy organization, the publish
records exactly the `GET /user` lookup's HTTP calls, and a lookup failure
is the publish outcome. -/
lemma push_uses_user_lookup (projectTree : List (String × FsEntry))
    (an rn : String) (tok org ent : Option String) (branch : String) (w : PushWorld)
    (token : String) (htok : pyOrOpt tok w.envGithubToken = some token)
    (horg : pyTruthy org = false) :
    ((push_agent_to_github projectTree an rn tok org ent branch w).2
        = (getGithubUsername token ent w.userResponse).2) ∧
    (∀ e, (getGithubUsername token ent w.userResponse).1 = .error e →
      (push_agent_to_github projectTree an rn tok org ent branch w).1 = .error e) := by
  unfold push_agent_to_github
  rw [htok]
  dsimp only
  cases org with
  | none =>
    cases hu : getGithubUsername token ent w.userResponse with
    | mk res calls =>
      dsimp only
      cases res with
      | error e => exact ⟨rfl, fun e2 he2 => by rw [← Except.error.inj he2]⟩
      | ok owner =>
        refine ⟨pushClonePhase_calls .., fun e2 he2 => ?_⟩
        simp at he2
  | some o =>
    have ho : (!o.data.isEmpty) = false := horg
    dsimp only
    rw [if_neg (by rw [ho]; exact Bool.false_ne_true)]
    cases hu : getGithubUsername token ent w.userResponse with
    | mk res calls =>
      dsimp only
      cases res with
      | error e => exact ⟨rfl, fun e2 he2 => by rw [← Except.error.inj he2]⟩
      | ok owner =>
        refine ⟨pushClonePhase_calls .., fun e2 he2 => ?_⟩
        simp at he2

/-- C6: the remote-folder publish requires a token — with neither the
explicit parameter nor the `GITHUB_TOKEN` fallback set (Python-falsy), it
raises the hard error before performing any HTTP call — and, when no
organization is supplied, resolves the owner through exactly one
authenticated `GET /user` lookup: a non-200 response raises a hard error
whose message carries the response body (and that error is the publish
outcome), while a 200 response makes the `login` field the owner. -/
theorem C6_token_and_owner_resolution (projectTree : List (String × FsEntry))
    (an rn : String) (tok org ent : Option String) (branch : String) (w : PushWorld) :
    (pyOrOpt tok w.envGithubToken = none →
      push_agent_to_github projectTree an rn tok org ent branch w
        = (.error (.runtime "GitHub token is required for push"), [])) ∧
    (∀ token, pyOrOpt tok w.envGithubToken = some token → pyTruthy org = false →
      ((push_agent_to_github projectTree an rn tok org ent branch w).2
          = (getGithubUsername token ent w.userResponse).2) ∧
      (getGithubUsername token ent w.userResponse).2
        = [((match ent with
             | some u => if !u.data.isEmpty then rstripSlashes u ++ "/api/v3"
                         else "https://api.github.com"
             | none => "https://api.github.com") ++ "/user", token)] ∧
      (w.userResponse.status_code ≠ 200 →
        (getGithubUsername token ent w.userResponse).1
            = .error (.runtime ("Failed to get GitHub username: "
                ++ natDec w.userResponse.status_code ++ " " ++ w.userResponse.text)) ∧
        (push_agent_to_github projectTree an rn tok org ent branch w).1
            = .error (.runtime ("Failed to get GitHub username: "
                ++ natDec w.userResponse.status_code ++ " " ++ w.userResponse.text))) ∧
      (w.userResponse.status_code = 200 →
        (getGithubUsername token ent w.userResponse).1 = .ok w.userResponse.login)) := by
  constructor
  · intro hnone
    unfold push_agent_to_github
    rw [hnone]
  · intro token htok horg
    obtain ⟨hcalls, herr⟩ := push_uses_user_lookup projectTree an rn tok org ent branch w
      token htok horg
    refine ⟨hcalls, ?_, ?_, ?_⟩
    · unfold getGithubUsername
      dsimp only
      split <;> rfl
    · intro h200
      have hu1 : (getGithubUsername token ent w.userResponse).1
          = .error (.runtime ("Failed to get GitHub username: "
              ++ natDec w.userResponse.status_code ++ " " ++ w.userResponse.text)) := by
        unfold getGithubUsername
        dsimp only
        rw [if_neg h200]
      exact ⟨hu1, herr _ hu1⟩
    · intro h200
      unfold getGithubUsername
      dsimp only
      rw [if_pos h200]

/-- Fixture: a 200 `GET /user` response for user `octocat`. -/
def userOk : HttpResponse :=
  { status_code := 200, text := "\x7b\x22login\x22: \x22octocat\x22\x7d", login := "octocat" }

/-- Fixture: a 404 `GET /user` response. -/
def userNotFound : HttpResponse :=
  { status_code := 404, text := "Not Found", login := "" }

/-- Fixture: publish environment with no `GITHUB_TOKEN` fallback and every
external step succeeding; the random draw is 42. -/
def pushOkWorld : PushWorld :=
  { envGithubToken := none, userResponse := userOk, randSuffix := 42,
    cloneResult := .ok [], configNameOk := true, configEmailOk := true,
    addOk := true, commitOk := true, pushOk := true }

/-- Fixture: same environment but the `GET /user` lookup fails. -/
def pushAuthFailWorld : PushWorld :=
  { pushOkWorld with userResponse := userNotFound }

theorem C6_witness :
    (pyOrOpt (some "") pushOkWorld.envGithubToken = none ∧
      push_agent_to_github [] "weather-agent" "agents-collection" (some "") none none
        "main" pushOkWorld = (.error (.runtime "GitHub token is required for push"), [])) ∧
    (pyOrOpt (some "ghp_x") pushOkWorld.envGithubToken = some "ghp_x" ∧
      (push_agent_to_github [] "weather-agent" "agents-collection" (some "ghp_x") none none
        "main" pushOkWorld).2 = [("https://api.github.com/user", "ghp_x")] ∧
      (getGithubUsername "ghp_x" none pushOkWorld.userResponse).1 = .ok "octocat") ∧
    (push_agent_to_github [] "weather-agent" "agents-collection" (some "ghp_x") none none
        "main" pushAuthFailWorld).1
      = .error (.runtime "Failed to get GitHub username: 404 Not Found") :=
  ⟨⟨by decide,
    (C6_token_and_owner_resolution [] "weather-agent" "agents-collection" (some "")
      none none "main" pushOkWorld).1 (by decide)⟩,
   ⟨by decide,
    ((C6_token_and_owner_resolution [] "weather-agent" "agents-collection" (some "ghp_x")
        none none "main" pushOkWorld).2 "ghp_x" (by decide) (by decide)).1.trans
      ((C6_token_and_owner_resolution [] "weather-agent" "agents-collection" (some "ghp_x")
        none none "main" pushOkWorld).2 "ghp_x" (by decide) (by decide)).2.1,
    (((C6_token_and_owner_resolution [] "weather-agent" "agents-collection" (some "ghp_x")
        none none "main" pushOkWorld).2 "ghp_x" (by decide) (by decide)).2.2.2 (by decide))⟩,
   (((C6_token_and_owner_resolution [] "weather-agent" "agents-collection" (some "ghp_x")
        none none "main" pushAuthFailWorld).2 "ghp_x" (by decide) (by decide)).2.2.1
      (by decide)).2⟩

lemma setFs_append_of_fresh (acc : List (String × FsEntry)) (n : String) (v : FsEntry)
    (h : ∀ e ∈ acc, e.1 ≠ n) : setFs acc n v = acc ++ [(n, v)] := by
  unfold setFs
  rw [if_neg]
  intro hc
  obtain ⟨e, hmem, hbeq⟩ := List.any_eq_true.mp hc
  exact h e hmem (by simpa using hbeq)

/-- The copy loop over a fresh destination lays down exactly the project's
items in order, with the top-level `.git` entry filtered out. -/
lemma copyProjectItems_eq_filter :
    ∀ (project acc : List (String × FsEntry)),
      (project.map Prod.fst).Nodup →
      (∀ e ∈ acc, ∀ f ∈ project, e.1 ≠ f.1) →
      copyProjectItems project acc = acc ++ project.filter (fun e => e.1 != ".git")
  | [], acc, _, _ => by simp [copyProjectItems]
  | (n, v) :: rest, acc, hnd, hdisj => by
    have hnd2 : (rest.map Prod.fst).Nodup := by
      rw [List.map_cons, List.nodup_cons] at hnd
      exact hnd.2
    unfold copyProjectItems
    rw [List.foldl_cons]
    by_cases hn : n = ".git"
    · rw [if_pos hn]
      have := copyProjectItems_eq_filter rest acc hnd2
        (fun e he f hf => hdisj e he f (List.mem_cons_of_mem _ hf))
      unfold copyProjectItems at this
      rw [this, List.filter_cons]
      rw [show ((n, v).1 != ".git") = false by simp [hn]]
      simp
    · rw [if_neg hn]
      have hfresh : ∀ e ∈ acc, e.1 ≠ n :=
        fun e he => hdisj e he (n, v) (List.mem_cons_self _ _)
      rw [setFs_append_of_fresh acc n v hfresh]
      have hdisj2 : ∀ e ∈ acc ++ [(n, v)], ∀ f ∈ rest, e.1 ≠ f.1 := by
        intro e he f hf
        rcases List.mem_append.mp he with h1 | h1
        · exact hdisj e h1 f (List.mem_cons_of_mem _ hf)
        · rw [List.mem_singleton] at h1
          rw [h1]
          intro hef
          rw [List.map_cons, List.nodup_cons] at hnd
          exact hnd.1 (hef ▸ List.mem_map_of_mem Prod.fst hf)
      have := copyProjectItems_eq_filter rest (acc ++ [(n, v)]) hnd2 hdisj2
      unfold copyProjectItems at this
      rw [this, List.filter_cons]
      rw [show ((n, v).1 != ".git") = true by simpa using hn]
      simp

/-- C8: during a remote-folder publish, the copy loop places every item of
the source project except the top-level `.git` directory into the (fresh)
destination folder — the destination is exactly the `.git`-filtered source
listing, `.git` is absent from it, and every other item is present. The
source listing is an input the loop only reads, so it is unchanged. -/
theorem C8_copy_all_but_git (project : List (String × FsEntry))
    (hnd : (project.map Prod.fst).Nodup) :
    copyProjectItems project [] = project.filter (fun e => e.1 != ".git") ∧
    lookupFs (copyProjectItems project []) ".git" = none ∧
    (∀ name entry, (name, entry) ∈ project → name ≠ ".git" →
      (name, entry) ∈ copyProjectItems project []) := by
  have hmain := copyProjectItems_eq_filter project [] hnd (by simp)
  rw [List.nil_append] at hmain
  refine ⟨hmain, ?_, ?_⟩
  · rw [hmain]
    unfold lookupFs
    cases hfind : (project.filter (fun e => e.1 != ".git")).find? (fun e => e.1 == ".git") with
    | none => rfl
    | some e =>
      have hp := List.find?_some hfind
      have hm := List.mem_of_find?_eq_some hfind
      have := List.of_mem_filter hm
      simp at hp this
      exact absurd hp this
  · intro name entry hmem hne
    rw [hmain]
    exact List.mem_filter.mpr ⟨hmem, by simpa using hne⟩

theorem C8_witness :
    ((([("app", FsEntry.dir [("agent.py", FsEntry.file "code")]),
        (".git", FsEntry.dir []), ("README.md", FsEntry.file "readme")]
        : List (String × FsEntry)).map Prod.fst).Nodup) ∧
    (copyProjectItems
        [("app", FsEntry.dir [("agent.py", FsEntry.file "code")]),
         (".git", FsEntry.dir []), ("README.md", FsEntry.file "readme")] []
      = [("app", FsEntry.dir [("agent.py", FsEntry.file "code")]),
         ("README.md", FsEntry.file "readme")] ∧
     lookupFs (copyProjectItems
        [("app", FsEntry.dir [("agent.py", FsEntry.file "code")]),
         (".git", FsEntry.dir []), ("README.md", FsEntry.file "readme")] []) ".git" = none) :=
  ⟨by decide,
   (C8_copy_all_but_git _ (by decide)).1.trans rfl,
   (C8_copy_all_but_git
     [("app", FsEntry.dir [("agent.py", FsEntry.file "code")]),
      (".git", FsEntry.dir []), ("README.md", FsEntry.file "readme")] (by decide)).2.1⟩

/-- Fixture: the git-publishing request with a valid token and repository
name (`github_token` is carried by the request model; the handler never
reads it). -/
def c1Request : GenerateProjectRequest :=
  { agent_name := "weather-agent",
    description := "An agent that reports weather",
    prompt := "You are a weather bot",
    tools := [],
    create_git_repo := true,
    git_repo_name := some "agents-collection",
    github_token := some "ghp_validtoken",
    github_org := none,
    github_enterprise_url := none }

/-- C1 counterexample: with `create_git_repo = true`, a valid token and
repo name, and every external step succeeding, the handler returns the
LOCAL publish result `file://<project_path>` — produced by
`create_git_repository`, not by the remote-folder publish — and that URL
matches no instantiation of the claimed pattern
`<host>/<owner>/<repo>/tree/<branch>/<agent_name>-####` (it contains no
`/tree/` segment at all). -/
theorem C1_counterexample :
    (generate_agent_project c1Request okWorld "/tmp/agent-starter-pack-api").1
      = .ok { project_name := "weather-agent",
              download_url := "/downloads/weather-agent.zip",
              git_repo_url := some "file:///tmp/agent-starter-pack-api/projects/weather-agent",
              git_folder_name := none,
              files_generated := 25,
              message := "Project \x27weather-agent\x27 generated successfully!" } ∧
    ∀ host owner repo branch d : String,
      "file:///tmp/agent-starter-pack-api/projects/weather-agent"
        ≠ host ++ "/" ++ owner ++ "/" ++ repo ++ "/tree/" ++ branch ++ "/"
            ++ "weather-agent" ++ "-" ++ d := by
  constructor
  · rfl
  · intro host owner repo branch d heq
    have hinf : "/tree/".data <:+: (host ++ "/" ++ owner ++ "/" ++ repo ++ "/tree/"
        ++ branch ++ "/" ++ "weather-agent" ++ "-" ++ d).data := by
      refine ⟨(host ++ "/" ++ owner ++ "/" ++ repo).data,
        (branch ++ "/" ++ "weather-agent" ++ "-" ++ d).data, ?_⟩
      simp [String.data_append, List.append_assoc]
    rw [← heq] at hinf
    exact absurd hinf (by decide)

/-- C1 (amended): the handler's `git_repo_url` is the local `file://` path
(shown in the counterexample); it is the remote-folder publish function
`push_agent_to_github` — not invoked by the handler — whose success result
is the browse URL `<host>/<owner>/<repo>/tree/<branch>/<agent_name>-####`
with a suffix of exactly four decimal digits. -/
theorem C1_remote_publish_url_shape (projectTree : List (String × FsEntry))
    (an rn branch : String) (tok : String) (w : PushWorld)
    (htok : tok.data ≠ [])
    (h200 : w.userResponse.status_code = 200)
    (hclone : ∃ tree, w.cloneResult = .ok tree)
    (hcmds : w.configNameOk = true ∧ w.configEmailOk = true ∧ w.addOk = true
      ∧ w.commitOk = true ∧ w.pushOk = true)
    (hrand : w.randSuffix < 10000) :
    push_agent_to_github projectTree an rn (some tok) none none branch w
      = (.ok (an ++ "-" ++ format04d w.randSuffix,
          "https://github.com" ++ "/" ++ w.userResponse.login ++ "/" ++ rn
            ++ "/tree/" ++ branch ++ "/" ++ (an ++ "-" ++ format04d w.randSuffix)),
         [("https://api.github.com/user", tok)]) ∧
    (format04d w.randSuffix).data.length = 4 ∧
    (format04d w.randSuffix).data.all Char.isDigit = true := by
  obtain ⟨tree, htree⟩ := hclone
  obtain ⟨h1, h2, h3, h4, h5⟩ := hcmds
  refine ⟨?_, (format04d_spec w.randSuffix hrand).1, (format04d_spec w.randSuffix hrand).2⟩
  unfold push_agent_to_github
  have hor : pyOrOpt (some tok) w.envGithubToken = some tok := by
    unfold pyOrOpt pyTruthy
    rw [if_pos (by simpa using htok)]
  rw [hor]
  dsimp only
  unfold getGithubUsername
  dsimp only
  rw [if_pos h200]
  dsimp only
  unfold pushClonePhase
  rw [htree]
  dsimp only
  rw [h1, h2, h3, h4, h5]
  rfl

theorem C1_witness :
    ("ghp_x" : String).data ≠ [] ∧
    pushOkWorld.userResponse.status_code = 200 ∧
    pushOkWorld.randSuffix < 10000 ∧
    push_agent_to_github [] "weather-agent" "agents-collection" (some "ghp_x") none none
        "main" pushOkWorld
      = (.ok ("weather-agent-0042",
          "https://github.com/octocat/agents-collection/tree/main/weather-agent-0042"),
         [("https://api.github.com/user", "ghp_x")]) ∧
    ("0042" : String).data.length = 4 ∧ ("0042" : String).data.all Char.isDigit = true :=
  ⟨by decide, rfl, by decide,
   (C1_remote_publish_url_shape [] "weather-agent" "agents-collection" "main" "ghp_x"
      pushOkWorld (by decide) rfl ⟨[], rfl⟩ ⟨rfl, rfl, rfl, rfl, rfl⟩ (by decide)).1.trans
     (by rfl),
   (C1_remote_publish_url_shape [] "weather-agent" "agents-collection" "main" "ghp_x"
      pushOkWorld (by decide) rfl ⟨[], rfl⟩ ⟨rfl, rfl, rfl, rfl, rfl⟩ (by decide)).2.1,
   (C1_remote_publish_url_shape [] "weather-agent" "agents-collection" "main" "ghp_x"
      pushOkWorld (by decide) rfl ⟨[], rfl⟩ ⟨rfl, rfl, rfl, rfl, rfl⟩ (by decide)).2.2⟩

/-! ## Junction toolkit

Sufficient, decidable criteria for `crossFree` hypotheses and zero counts,
used to discharge the side conditions of the replace/split lemmas on the
template's composite strings. -/

lemma pfx_take {y z : List Char} (h : y <+: z) (k : Nat) : y.take k <+: z.take k := by
  rw [List.prefix_iff_eq_take] at h
  rw [List.prefix_iff_eq_take]
  conv_lhs => rw [h]
  rw [List.take_take, List.take_take, List.length_take]
  congr 1
  omega

/-- A pattern containing a character absent from the subject cannot occur
in it. -/
lemma cnt_zero_of_not_mem {pat s : List Char} {c : Char} (hc : c ∈ pat) (hcs : c ∉ s) :
    cntAux pat s = 0 := by
  have hp : pat ≠ [] := by
    intro h0
    rw [h0] at hc
    cases hc
  rw [cnt_eq_zero_iff hp]
  intro m hocc
  exact hcs ((List.drop_subset m s) (hocc.subset hc))

/-- Junction criterion, concrete right side: if the right flank starts
with a known piece `p` at least `pat.length - 1` long and no proper tail
of `pat` is a prefix of `p`, nothing straddles the junction. -/
lemma crossFree_concat_right {pat p : List Char} (hlen : pat.length - 1 ≤ p.length)
    (h : ∀ j < pat.length, 0 < j → ¬ pat.drop j <+: p) (x rest : List Char) :
    crossFree pat x (p ++ rest) := by
  intro j hj hj0
  right
  intro hx
  have hle : (pat.drop j).length ≤ p.length := by
    rw [List.length_drop]
    omega
  exact h j hj hj0 ((pfx_det_left hle).mp hx)

/-- Junction criterion, concrete short left side: if no proper head of
`pat` is a suffix of the left flank `x`, nothing straddles the junction. -/
lemma crossFree_left_concrete {pat x : List Char}
    (h : ∀ j < pat.length, 0 < j → j ≤ x.length → ¬ pat.take j <:+ x) (b : List Char) :
    crossFree pat x b := by
  intro j hj hj0
  left
  by_cases hle : j ≤ x.length
  · exact h j hj hj0 hle
  · intro hs
    have := hs.length_le
    rw [List.length_take] at this
    omega

/-- Junction criterion, concrete left tail: like `crossFree_left_concrete`
but for a left flank ending in a known piece `t` at least
`pat.length - 1` long. -/
lemma crossFree_left_tail {pat t : List Char} (hlen : pat.length - 1 ≤ t.length)
    (h : ∀ j < pat.length, 0 < j → ¬ pat.take j <:+ t) (front b : List Char) :
    crossFree pat (front ++ t) b := by
  intro j hj hj0
  left
  intro hs
  have hjlen : (pat.take j).length ≤ t.length := by
    rw [List.length_take]
    omega
  exact h j hj hj0 ((sfx_det_right hjlen).mp hs)

/-- The template-safe text characters: letters, digits, and common
punctuation that appears in none of the boilerplate search patterns at a
straddling position. -/
def goodChar (c : Char) : Bool :=
  c.isAlphanum || " .,-_!?:;\x27()".data.contains c

/-- Junction criterion, class-restricted left side: with every character
of the left flank in the safe class, a straddle needs an all-safe head of
`pat` whose matching tail starts like the concrete piece `p`; if no split
offers both, nothing straddles. -/
lemma crossFree_classmix {pat p : List Char} (a rest : List Char)
    (hgood : ∀ d ∈ a, goodChar d = true)
    (h : ∀ j < pat.length, 0 < j →
      ¬ ((pat.take j).all goodChar = true) ∨ ¬ ((pat.drop j).take p.length <+: p)) :
    crossFree pat a (p ++ rest) := by
  intro j hj hj0
  rcases h j hj hj0 with hbad | hdrop
  · left
    intro hs
    apply hbad
    rw [List.all_eq_true]
    exact fun c hc => hgood c (hs.subset hc)
  · right
    intro hx
    apply hdrop
    have := pfx_take hx p.length
    rwa [List.take_append_of_le_length (le_refl p.length), List.take_length] at this

/-- Wrapper: counting over a `String` append splits at a safe junction. -/
lemma cnt_str_append {pat : List Char} (x y : String)
    (h : crossFree pat x.data y.data) :
    cntAux pat (x ++ y).data = cntAux pat x.data + cntAux pat y.data := by
  rw [String.data_append]
  exact cnt_append x.data y.data h

/-- A character missing from an all-safe string under the class filter. -/
lemma not_mem_of_good {s : List Char} {c : Char} (hbad : goodChar c = false)
    (hgood : ∀ d ∈ s, goodChar d = true) : c ∉ s := by
  intro hmem
  rw [hgood c hmem] at hbad
  cases hbad

lemma pyJoin_append (sep : String) : ∀ (A B : List String), A ≠ [] → B ≠ [] →
    pyJoin sep (A ++ B) = pyJoin sep A ++ sep ++ pyJoin sep B
  | [], _, hA, _ => absurd rfl hA
  | [p], B, _, hB => by
    cases B with
    | nil => exact absurd rfl hB
    | cons q rest => rfl
  | p :: q :: rest, B, _, hB => by
    have ih := pyJoin_append sep (q :: rest) B (by simp) hB
    show p ++ sep ++ pyJoin sep ((q :: rest) ++ B) = _
    rw [ih, pyJoin_cons_cons]
    simp [String.append_assoc]

/-- Counting a newline-free pattern in `pyJoin "\n" L ++ "\n"` is the sum
of the per-line counts. -/
lemma cnt_lines_tail {pat : List Char} (hp : pat ≠ []) (hnl : '\n' ∉ pat) (L : List String) :
    cntAux pat (pyJoin "\n" L ++ "\n").data
      = (L.map (fun l => cntAux pat l.data)).sum := by
  rw [cnt_str_append _ _ (crossFree_newline hnl (pyJoin "\n" L).data []),
    cnt_join_lines hp hnl,
    show ("\n" : String).data = ['\n'] from rfl,
    cnt_cons_newline hp hnl, cnt_nil, Nat.add_zero]

/-- The part of the template before the marker, as its 82 physical lines. -/
lemma THEAD_lines : THEAD = pyJoin "\n" (TL_1_47 ++ ["", ""] ++ TL_50_82) ++ "\n" := by
  unfold THEAD P0CUT DEFSB
  rw [List.append_assoc]
  rw [pyJoin_append "\n" TL_1_47 (["", ""] ++ TL_50_82) (by simp [TL_1_47]) (by simp),
    pyJoin_append "\n" ["", ""] TL_50_82 (by simp) (by simp [TL_50_82]),
    show pyJoin "\n" ["", ""] = "" ++ "\n" ++ "" from rfl]
  simp only [String.append_assoc]
  congr 1

lemma cnt_lines_tail2 {pat : List Char} (hp : pat ≠ []) (hnl : '\n' ∉ pat) (L : List String) :
    cntAux pat (pyJoin "\n" L ++ "\n\n").data
      = (L.map (fun l => cntAux pat l.data)).sum := by
  rw [cnt_str_append _ _ (crossFree_newline hnl (pyJoin "\n" L).data ['\n']),
    cnt_join_lines hp hnl,
    show ("\n\n" : String).data = ['\n', '\n'] from rfl,
    cnt_cons_newline hp hnl, cnt_cons_newline hp hnl, cnt_nil, Nat.add_zero]

set_option maxRecDepth 20000 in
lemma cnt_descPat_THEAD : cntAux descPat.data THEAD.data = 0 := by
  rw [THEAD_lines, cnt_lines_tail (by decide) (by decide)]
  decide

set_option maxRecDepth 20000 in
lemma cnt_instrPat_THEAD : cntAux instrPat.data THEAD.data = 0 := by
  rw [THEAD_lines, cnt_lines_tail (by decide) (by decide)]
  decide

set_option maxRecDepth 20000 in
lemma cnt_marker_THEAD : cntAux agentMarker.data THEAD.data = 0 := by
  rw [THEAD_lines, cnt_lines_tail (by decide) (by decide)]
  decide

set_option maxRecDepth 20000 in
lemma cnt_def_THEAD : cntAux "def ".data THEAD.data = 2 := by
  rw [THEAD_lines, cnt_lines_tail (by decide) (by decide)]
  decide

set_option maxRecDepth 20000 in
lemma cnt_def_P0CUT : cntAux "def ".data P0CUT.data = 0 := by
  unfold P0CUT
  rw [cnt_lines_tail2 (by decide) (by decide)]
  decide

/-- Junction criterion, arbitrary concrete right piece: decidable whenever
the pattern and the whole right flank are concrete. -/
lemma crossFree_right_all {pat b : List Char}
    (h : ∀ j < pat.length, 0 < j → ¬ pat.drop j <+: b) (x : List Char) :
    crossFree pat x b := fun j hj hj0 => Or.inr (h j hj hj0)

set_option maxRecDepth 20000 in
/-- Replacing the description and instruction boilerplate in the template
rewrites exactly its two boilerplate occurrences, leaving every other
character in place. The description must consist of template-safe text
characters (`goodChar`), so that no search pattern can occur inside it or
straddle its boundaries; the prompt is never rescanned, so it is
unconstrained. -/
lemma customize_core (desc prompt : String)
    (hdesc : ∀ c ∈ desc.data, goodChar c = true) :
    pyReplace (pyReplace TEMPLATE descPat ("description=\x22" ++ desc ++ "\x22"))
        instrPat ("instruction=\x22" ++ prompt ++ "\x22")
      = THEAD ++ agentMarker ++ MIDA ++ ("description=\x22" ++ desc ++ "\x22") ++ TBMID
          ++ ("instruction=\x22" ++ prompt ++ "\x22") ++ TCA ++ toolsPat ++ TCB := by
  have tmpl_eq : TEMPLATE = (THEAD ++ agentMarker ++ MIDA) ++ descPat
      ++ (TBMID ++ instrPat ++ TCA ++ toolsPat ++ TCB) := by
    unfold TEMPLATE
    simp [String.append_assoc]
  have hA_desc : cntAux descPat.data (THEAD ++ agentMarker ++ MIDA).data = 0 := by
    rw [cnt_str_append _ _ (crossFree_right_all (by decide) _),
      cnt_str_append _ _ (crossFree_right_all (by decide) _),
      cnt_descPat_THEAD]
    decide
  have hB_desc : cntAux descPat.data
      (TBMID ++ instrPat ++ TCA ++ toolsPat ++ TCB).data = 0 := by
    rw [cnt_str_append _ _ (crossFree_right_all (by decide) _),
      cnt_str_append _ _ (crossFree_right_all (by decide) _),
      cnt_str_append _ _ (crossFree_right_all (by decide) _),
      cnt_str_append _ _ (crossFree_right_all (by decide) _)]
    decide
  have step1 : pyReplace TEMPLATE descPat ("description=\x22" ++ desc ++ "\x22")
      = (THEAD ++ agentMarker ++ MIDA) ++ ("description=\x22" ++ desc ++ "\x22")
        ++ (TBMID ++ instrPat ++ TCA ++ toolsPat ++ TCB) := by
    rw [tmpl_eq]
    exact pyReplace_concat _ _ _ _ (by decide) hA_desc
      (crossFree_concat_right (by decide) (by decide) _ _) hB_desc
  rw [step1]
  have e2 : (THEAD ++ agentMarker ++ MIDA) ++ ("description=\x22" ++ desc ++ "\x22")
        ++ (TBMID ++ instrPat ++ TCA ++ toolsPat ++ TCB)
      = ((THEAD ++ agentMarker ++ MIDA) ++ ("description=\x22" ++ desc ++ "\x22") ++ TBMID)
        ++ instrPat ++ (TCA ++ toolsPat ++ TCB) := by
    simp [String.append_assoc]
  have e3 : (THEAD ++ agentMarker ++ MIDA) ++ ("description=\x22" ++ desc ++ "\x22") ++ TBMID
      = (THEAD ++ agentMarker ++ MIDA) ++ ("description=\x22" ++ (desc ++ ("\x22" ++ TBMID))) := by
    simp [String.append_assoc]
  have ha2 : cntAux instrPat.data
      ((THEAD ++ agentMarker ++ MIDA) ++ ("description=\x22" ++ desc ++ "\x22") ++ TBMID).data
        = 0 := by
    rw [e3]
    rw [cnt_str_append _ _ (show crossFree instrPat.data (THEAD ++ agentMarker ++ MIDA).data
      ("description=\x22" ++ (desc ++ ("\x22" ++ TBMID))).data from
      crossFree_left_tail (t := MIDA.data) (by decide) (by decide)
        (THEAD ++ agentMarker).data _)]
    rw [cnt_str_append _ _ (crossFree_right_all (by decide) _),
      cnt_str_append _ _ (crossFree_right_all (by decide) _),
      cnt_instrPat_THEAD]
    rw [cnt_str_append _ _ (crossFree_left_concrete (by decide) _)]
    rw [cnt_str_append _ _ (show crossFree instrPat.data desc.data
      ("\x22" ++ TBMID).data from
      crossFree_classmix (p := ("\x22" : String).data) desc.data TBMID.data hdesc (by decide))]
    rw [cnt_zero_of_not_mem (c := '\x22') (by decide)
      (not_mem_of_good (by decide) hdesc)]
    decide
  have hb2 : cntAux instrPat.data (TCA ++ toolsPat ++ TCB).data = 0 := by
    rw [cnt_str_append _ _ (crossFree_right_all (by decide) _),
      cnt_str_append _ _ (crossFree_right_all (by decide) _)]
    decide
  rw [e2]
  rw [pyReplace_concat _ _ _ _ (by decide) ha2
    (crossFree_concat_right (by decide) (by decide) _ _) hb2]
  simp [String.append_assoc]

/-- C7: with an empty tools list, the customization step replaces exactly
the template's description boilerplate with the request's description and
its instruction boilerplate with the request's prompt — each located by
exact match on the fixed boilerplate text and substituted verbatim — and
leaves every other character of the agent source unchanged. (The
description is restricted to template-safe text characters so that the
search patterns cannot occur inside it or straddle its boundaries.) -/
theorem C7_customize_replaces_exactly (req : GenerateProjectRequest)
    (hempty : req.tools = [])
    (hdesc : ∀ c ∈ req.description.data, goodChar c = true) :
    customizeContent TEMPLATE req
      = THEAD ++ agentMarker ++ MIDA ++ ("description=\x22" ++ req.description ++ "\x22")
          ++ TBMID ++ ("instruction=\x22" ++ req.prompt ++ "\x22") ++ TCA ++ toolsPat ++ TCB := by
  unfold customizeContent
  rw [hempty]
  dsimp only
  rw [if_neg (by simp)]
  exact customize_core req.description req.prompt hdesc

theorem C7_witness :
    okRequest.tools = [] ∧
    (∀ c ∈ okRequest.description.data, goodChar c = true) ∧
    customizeContent TEMPLATE okRequest
      = THEAD ++ agentMarker ++ MIDA
          ++ ("description=\x22" ++ okRequest.description ++ "\x22")
          ++ TBMID ++ ("instruction=\x22" ++ okRequest.prompt ++ "\x22")
          ++ TCA ++ toolsPat ++ TCB :=
  ⟨rfl, by decide, C7_customize_replaces_exactly okRequest rfl (by decide)⟩

/-- A tool whose name and description are template-safe text with no
occurrence of a function-definition head. -/
def benignTool (t : ToolInfo) : Prop :=
  (∀ c ∈ t.name.data, goodChar c = true) ∧ (∀ c ∈ t.description.data, goodChar c = true)
    ∧ cntAux "def ".data t.name.data = 0 ∧ cntAux "def ".data t.description.data = 0

instance (t : ToolInfo) : Decidable (benignTool t) := by
  unfold benignTool
  infer_instance

set_option maxRecDepth 20000 in
/-- One generated stub contributes exactly one function-definition head. -/
lemma cnt_def_stub (t : ToolInfo) (hb : benignTool t) :
    cntAux "def ".data (generate_tool_stub t).data = 1 := by
  obtain ⟨hn, hd, hn0, hd0⟩ := hb
  have es : generate_tool_stub t
      = "\ndef " ++ (t.name ++ ("(query: str) -> str:\n    \x22\x22\x22"
        ++ (t.description
        ++ ("\n\n    Args:\n        query: Input query for the tool\n\n    Returns:\n        Tool result as a string\n    \x22\x22\x22\n    # TODO: Implement "
        ++ (t.name ++ ("\n    return f\x22Result from "
        ++ (t.name ++ ": \x7bquery\x7d\x22\n"))))))) := by
    unfold generate_tool_stub
    simp [String.append_assoc]
  rw [es]
  rw [cnt_str_append _ _ (crossFree_left_concrete (by decide) _)]
  rw [cnt_str_append _ _ (show crossFree "def ".data t.name.data
    ("(query: str) -> str:\n    \x22\x22\x22"
      ++ (t.description
      ++ ("\n\n    Args:\n        query: Input query for the tool\n\n    Returns:\n        Tool result as a string\n    \x22\x22\x22\n    # TODO: Implement "
      ++ (t.name ++ ("\n    return f\x22Result from "
      ++ (t.name ++ ": \x7bquery\x7d\x22\n")))))).data
    from crossFree_concat_right (by decide) (by decide) _ _)]
  rw [cnt_str_append _ _ (crossFree_left_concrete (by decide) _)]
  rw [cnt_str_append _ _ (show crossFree "def ".data t.description.data
    ("\n\n    Args:\n        query: Input query for the tool\n\n    Returns:\n        Tool result as a string\n    \x22\x22\x22\n    # TODO: Implement "
      ++ (t.name ++ ("\n    return f\x22Result from "
      ++ (t.name ++ ": \x7bquery\x7d\x22\n")))).data
    from crossFree_concat_right (by decide) (by decide) _ _)]
  rw [cnt_str_append _ _ (crossFree_left_concrete (by decide) _)]
  rw [cnt_str_append _ _ (show crossFree "def ".data t.name.data
    ("\n    return f\x22Result from " ++ (t.name ++ ": \x7bquery\x7d\x22\n")).data
    from crossFree_concat_right (by decide) (by decide) _ _)]
  rw [cnt_str_append _ _ (crossFree_left_concrete (by decide) _)]
  rw [cnt_str_append _ _ (crossFree_right_all (by decide) _)]
  rw [hn0, hd0]
  decide

/-- Joining template-safe names with `", "` yields template-safe text. -/
lemma good_join : ∀ (ns : List String), (∀ n ∈ ns, ∀ c ∈ n.data, goodChar c = true) →
    ∀ c ∈ (pyJoin ", " ns).data, goodChar c = true
  | [], _, c, hc => absurd hc (by intro h; cases h)
  | [n], h, c, hc => h n (by simp) c hc
  | n :: m :: rest, h, c, hc => by
    rw [pyJoin_cons_cons, String.append_assoc, String.data_append, List.mem_append] at hc
    rcases hc with hc | hc
    · exact h n (by simp) c hc
    rw [String.data_append, List.mem_append] at hc
    rcases hc with hc | hc
    · have hcc : c = ',' ∨ c = ' ' := by simpa using hc
      rcases hcc with rfl | rfl <;> decide
    · exact good_join (m :: rest) (fun x hx => h x (by simp [hx])) c hc

/-- A comma-space join of names free of the function-definition head is
itself free of it, provided the names are template-safe. -/
lemma cnt_def_names_join : ∀ (ns : List String),
    (∀ n ∈ ns, (∀ c ∈ n.data, goodChar c = true) ∧ cntAux "def ".data n.data = 0) →
    cntAux "def ".data (pyJoin ", " ns).data = 0
  | [], _ => by decide
  | [n], h => (h n (by simp)).2
  | n :: m :: rest, h => by
    rw [pyJoin_cons_cons, String.append_assoc]
    rw [cnt_str_append _ _ (show crossFree "def ".data n.data
      (", " ++ pyJoin ", " (m :: rest)).data from
      crossFree_classmix (p := (", " : String).data) n.data (pyJoin ", " (m :: rest)).data
        (h n (by simp)).1 (by decide))]
    rw [cnt_str_append _ _ (crossFree_left_concrete (by decide) _)]
    rw [(h n (by simp)).2,
      cnt_def_names_join (m :: rest) (fun x hx => h x (by simp [hx]))]
    decide

/-- A pattern with no newline cannot straddle into a string starting with
a newline (string-level form). -/
lemma crossFree_newline_str {pat : List Char} (hnl : '\n' ∉ pat) (a : List Char)
    (y : String) (hy : y.data.head? = some '\n') : crossFree pat a y.data := by
  cases hyd : y.data with
  | nil => rw [hyd] at hy; cases hy
  | cons d t =>
    have hd : d = '\n' := by
      rw [hyd] at hy
      simpa using hy
    rw [hd]
    exact crossFree_newline hnl a t

/-- The newline-joined stub block contains exactly one function-definition
head per supplied tool. -/
lemma cnt_def_stub_join : ∀ (ts : List ToolInfo), (∀ t ∈ ts, benignTool t) →
    ts ≠ [] →
    cntAux "def ".data (pyJoin "\n" (ts.map generate_tool_stub)).data = ts.length
  | [], _, hne => absurd rfl hne
  | [t], hb, _ => by
    show cntAux "def ".data (generate_tool_stub t).data = 1
    exact cnt_def_stub t (hb t (by simp))
  | t :: u :: rest, hb, _ => by
    show cntAux "def ".data
        (pyJoin "\n" (generate_tool_stub t :: generate_tool_stub u
          :: rest.map generate_tool_stub)).data = rest.length + 1 + 1
    rw [pyJoin_cons_cons, String.append_assoc]
    rw [cnt_str_append _ _ (crossFree_newline_str (by decide) _ _ (by
      rw [String.data_append, show ("\n" : String).data = ['\n'] from rfl]
      rfl))]
    rw [cnt_str_append _ _ (crossFree_left_concrete (by decide) _)]
    rw [cnt_def_stub t (hb t (by simp))]
    have htail := cnt_def_stub_join (u :: rest) (fun x hx => hb x (by simp [hx]))
      (by intro h; cases h)
    rw [show pyJoin "\n" (generate_tool_stub u :: rest.map generate_tool_stub)
        = pyJoin "\n" ((u :: rest).map generate_tool_stub) from rfl, htail]
    have h0 : cntAux ['d', 'e', 'f', ' '] ['\n'] = 0 := by decide
    rw [h0]
    simp only [List.length_cons]
    omega

/-- The configuration header ends with the `)` line closing the
`LiteLlm(` call, followed by the blank line 48. -/
lemma P0CUT_cut : P0CUT = (pyJoin "\n" (TL_1_47.take 46) ++ "\n") ++ ")\n\n" := by
  unfold P0CUT
  conv_lhs => rw [show TL_1_47 = TL_1_47.take 46 ++ [")"] from rfl]
  rw [pyJoin_append "\n" _ _ (by decide) (by decide)]
  rw [show (")\n\n" : String) = ")" ++ "\n\n" from rfl]
  simp [String.append_assoc, pyJoin]

/-- The pre-marker text, cut at the last `")\n\n"`. -/
lemma THEAD_cut : THEAD = (pyJoin "\n" (TL_1_47.take 46) ++ "\n") ++ ")\n\n" ++ DEFSB := by
  unfold THEAD
  rw [P0CUT_cut]

set_option maxRecDepth 20000 in
/-- No further `")\n\n"` occurs from the last one to the marker. -/
lemma cnt_close_after : cntAux ")\n\n".data (")\n\n".data.drop 1 ++ DEFSB.data) = 0 := by
  have e : ")\n\n".data.drop 1 ++ DEFSB.data = (("\n\n" ++ DEFSB : String)).data := by
    rw [String.data_append]
    rfl
  rw [e]
  have e2 : ("\n\n" : String) ++ DEFSB
      = "\n\n" ++ ("\n" ++ (pyJoin "\n" (TL_50_82.take 11)
        ++ ("\n" ++ (pyJoin "\n" ((TL_50_82.drop 11).take 11)
        ++ ("\n" ++ (pyJoin "\n" (TL_50_82.drop 22) ++ "\n")))))) := by
    unfold DEFSB
    conv_lhs => rw [show TL_50_82
      = TL_50_82.take 11 ++ ((TL_50_82.drop 11).take 11 ++ TL_50_82.drop 22) from rfl]
    rw [pyJoin_append "\n" _ _ (by decide) (by decide),
      pyJoin_append "\n" _ _ (by decide) (by decide)]
    simp [String.append_assoc]
  rw [e2]
  rw [cnt_str_append _ _ (crossFree_left_concrete (by decide) _)]
  rw [cnt_str_append _ _ (crossFree_left_concrete (by decide) _)]
  rw [cnt_str_append _ _ (crossFree_left_concrete (by decide) _)]
  rw [cnt_str_append _ _ (crossFree_left_concrete (by decide) _)]
  rw [cnt_str_append _ _ (crossFree_left_concrete (by decide) _)]
  rw [cnt_str_append _ _ (crossFree_left_concrete (by decide) _)]
  rw [cnt_str_append _ _ (crossFree_left_concrete (by decide) _)]
  decide

set_option maxRecDepth 20000 in
/-- `parts[0].rfind(")\n\n") + 3` cuts `parts[0]` exactly at the end of
the configuration header (the close of the `LiteLlm` block plus the blank
line), i.e. at `P0CUT`. -/
lemma slice_THEAD : pySliceTo THEAD (pyRFind THEAD ")\n\n" + 3) = P0CUT := by
  have hrf : pyRFind THEAD ")\n\n"
      = ((pyJoin "\n" (TL_1_47.take 46) ++ "\n").data.length : Int) := by
    conv_lhs => rw [THEAD_cut]
    exact pyRFind_concat _ _ _ (by decide) cnt_close_after
  rw [hrf]
  unfold pySliceTo
  rw [if_neg (by omega)]
  have hdata : THEAD.data = P0CUT.data ++ DEFSB.data := by
    rw [show THEAD = P0CUT ++ DEFSB from rfl, String.data_append]
  have hlen : P0CUT.data.length
      = (pyJoin "\n" (TL_1_47.take 46) ++ "\n").data.length + 3 := by
    conv_lhs => rw [P0CUT_cut]
    rw [String.data_append]
    simp
  rw [hdata, show ((((pyJoin "\n" (TL_1_47.take 46) ++ "\n").data.length : Int) + 3).toNat)
      = P0CUT.data.length from by omega]
  rw [List.take_left, str_eta]

set_option maxRecDepth 20000 in
/-- The marker comment occurs nowhere in the customized post-marker text:
its only occurrence in the whole file is the junction itself. -/
lemma cnt_marker_tail (desc prompt : String)
    (hdesc : ∀ c ∈ desc.data, goodChar c = true)
    (hprompt : ∀ c ∈ prompt.data, goodChar c = true) :
    cntAux agentMarker.data
      (((MIDA ++ ("description=\x22" ++ desc ++ "\x22") ++ TBMID
        ++ ("instruction=\x22" ++ prompt ++ "\x22") ++ TCA) ++ toolsPat ++ TCB)).data = 0 := by
  have er : ((MIDA ++ ("description=\x22" ++ desc ++ "\x22") ++ TBMID
        ++ ("instruction=\x22" ++ prompt ++ "\x22") ++ TCA) ++ toolsPat ++ TCB)
      = MIDA ++ ("description=\x22" ++ (desc ++ ("\x22" ++ (TBMID ++ ("instruction=\x22"
          ++ (prompt ++ ("\x22" ++ (TCA ++ (toolsPat ++ TCB))))))))) := by
    simp [String.append_assoc]
  rw [er]
  rw [cnt_str_append _ _ (crossFree_left_concrete (by decide) _)]
  rw [cnt_str_append _ _ (crossFree_left_concrete (by decide) _)]
  rw [cnt_str_append _ _ (show crossFree agentMarker.data desc.data
    ("\x22" ++ (TBMID ++ ("instruction=\x22" ++ (prompt ++ ("\x22" ++ (TCA
      ++ (toolsPat ++ TCB))))))).data from
    crossFree_classmix (p := ("\x22" : String).data) desc.data
      (TBMID ++ ("instruction=\x22" ++ (prompt ++ ("\x22" ++ (TCA ++ (toolsPat ++ TCB)))))).data
      hdesc (by decide))]
  rw [cnt_zero_of_not_mem (c := '#') (by decide) (not_mem_of_good (by decide) hdesc)]
  rw [cnt_str_append _ _ (crossFree_left_concrete (by decide) _)]
  rw [cnt_str_append _ _ (crossFree_left_concrete (by decide) _)]
  rw [cnt_str_append _ _ (crossFree_left_concrete (by decide) _)]
  rw [cnt_str_append _ _ (show crossFree agentMarker.data prompt.data
    ("\x22" ++ (TCA ++ (toolsPat ++ TCB))).data from
    crossFree_classmix (p := ("\x22" : String).data) prompt.data
      (TCA ++ (toolsPat ++ TCB)).data hprompt (by decide))]
  rw [cnt_zero_of_not_mem (c := '#') (by decide) (not_mem_of_good (by decide) hprompt)]
  rw [cnt_str_append _ _ (crossFree_left_concrete (by decide) _)]
  rw [cnt_str_append _ _ (crossFree_left_concrete (by decide) _)]
  rw [cnt_str_append _ _ (crossFree_left_concrete (by decide) _)]
  decide

set_option maxRecDepth 20000 in
/-- The default tools list occurs nowhere before its boilerplate
occurrence in the customized post-marker text. -/
lemma cnt_toolsPat_head (desc prompt : String)
    (hdesc : ∀ c ∈ desc.data, goodChar c = true)
    (hprompt : ∀ c ∈ prompt.data, goodChar c = true) :
    cntAux toolsPat.data
      ((MIDA ++ ("description=\x22" ++ desc ++ "\x22") ++ TBMID
        ++ ("instruction=\x22" ++ prompt ++ "\x22") ++ TCA)).data = 0 := by
  have er : (MIDA ++ ("description=\x22" ++ desc ++ "\x22") ++ TBMID
        ++ ("instruction=\x22" ++ prompt ++ "\x22") ++ TCA)
      = MIDA ++ ("description=\x22" ++ (desc ++ ("\x22" ++ (TBMID ++ ("instruction=\x22"
          ++ (prompt ++ ("\x22" ++ TCA))))))) := by
    simp [String.append_assoc]
  rw [er]
  rw [cnt_str_append _ _ (crossFree_left_concrete (by decide) _)]
  rw [cnt_str_append _ _ (crossFree_left_concrete (by decide) _)]
  rw [cnt_str_append _ _ (show crossFree toolsPat.data desc.data
    ("\x22" ++ (TBMID ++ ("instruction=\x22" ++ (prompt ++ ("\x22" ++ TCA))))).data from
    crossFree_classmix (p := ("\x22" : String).data) desc.data
      (TBMID ++ ("instruction=\x22" ++ (prompt ++ ("\x22" ++ TCA)))).data
      hdesc (by decide))]
  rw [cnt_zero_of_not_mem (c := '=') (by decide) (not_mem_of_good (by decide) hdesc)]
  rw [cnt_str_append _ _ (crossFree_left_concrete (by decide) _)]
  rw [cnt_str_append _ _ (crossFree_left_concrete (by decide) _)]
  rw [cnt_str_append _ _ (crossFree_left_concrete (by decide) _)]
  rw [cnt_str_append _ _ (show crossFree toolsPat.data prompt.data
    ("\x22" ++ TCA).data from
    crossFree_classmix (p := ("\x22" : String).data) prompt.data TCA.data
      hprompt (by decide))]
  rw [cnt_zero_of_not_mem (c := '=') (by decide) (not_mem_of_good (by decide) hprompt)]
  rw [cnt_str_append _ _ (crossFree_left_concrete (by decide) _)]
  decide

set_option maxRecDepth 20000 in
/-- The tools branch of the customization: the two default tool functions
are cut away at the last `")\n\n"` before the marker, the generated stubs
are appended in their place, and the default tools list is rewritten to
the supplied tool names joined by comma-space. -/
lemma customize_tools_core (req : GenerateProjectRequest)
    (hne : req.tools ≠ [])
    (hdesc : ∀ c ∈ req.description.data, goodChar c = true)
    (hprompt : ∀ c ∈ req.prompt.data, goodChar c = true) :
    customizeContent TEMPLATE req
      = (P0CUT ++ pyJoin "\n" (req.tools.map generate_tool_stub) ++ "\n\n")
          ++ agentMarker
          ++ ((MIDA ++ ("description=\x22" ++ req.description ++ "\x22") ++ TBMID
              ++ ("instruction=\x22" ++ req.prompt ++ "\x22") ++ TCA)
            ++ ("tools=[" ++ pyJoin ", " (req.tools.map (fun t => t.name)) ++ "]") ++ TCB) := by
  have hni : (!req.tools.isEmpty) = true := by
    obtain ⟨t, ts, ht⟩ := List.exists_cons_of_ne_nil hne
    rw [ht]
    rfl
  unfold customizeContent
  dsimp only
  rw [if_pos hni]
  rw [customize_core req.description req.prompt hdesc]
  have e : THEAD ++ agentMarker ++ MIDA ++ ("description=\x22" ++ req.description ++ "\x22")
        ++ TBMID ++ ("instruction=\x22" ++ req.prompt ++ "\x22") ++ TCA ++ toolsPat ++ TCB
      = THEAD ++ agentMarker
          ++ ((MIDA ++ ("description=\x22" ++ req.description ++ "\x22") ++ TBMID
            ++ ("instruction=\x22" ++ req.prompt ++ "\x22") ++ TCA) ++ toolsPat ++ TCB) := by
    simp [String.append_assoc]
  rw [e]
  unfold customizeWithTools
  rw [if_pos (containsSub_concat THEAD agentMarker _)]
  dsimp only
  rw [pySplit_concat THEAD agentMarker _ (by decide) cnt_marker_THEAD
    (crossFree_concat_right (by decide) (by decide) _ _)
    (cnt_marker_tail req.description req.prompt hdesc hprompt)]
  show (pySliceTo THEAD (pyRFind THEAD ")\n\n" + 3)
      ++ pyJoin "\n" (req.tools.map generate_tool_stub) ++ "\n\n")
    ++ agentMarker
    ++ pyReplace ((MIDA ++ ("description=\x22" ++ req.description ++ "\x22") ++ TBMID
        ++ ("instruction=\x22" ++ req.prompt ++ "\x22") ++ TCA) ++ toolsPat ++ TCB)
      toolsPat ("tools=[" ++ pyJoin ", " (req.tools.map (fun t => t.name)) ++ "]") = _
  rw [slice_THEAD]
  rw [pyReplace_concat _ _ _ _ (by decide)
    (cnt_toolsPat_head req.description req.prompt hdesc hprompt)
    (crossFree_concat_right (by decide) (by decide) _ _)
    (by decide)]

set_option maxRecDepth 20000 in
/-- With the default tools kept, the customized source has exactly the
template's two function definitions. -/
lemma cnt_def_empty_output (desc prompt : String)
    (hdesc : ∀ c ∈ desc.data, goodChar c = true)
    (hprompt : ∀ c ∈ prompt.data, goodChar c = true)
    (hd0 : cntAux "def ".data desc.data = 0)
    (hp0 : cntAux "def ".data prompt.data = 0) :
    cntAux "def ".data
      ((THEAD ++ agentMarker ++ MIDA ++ ("description=\x22" ++ desc ++ "\x22") ++ TBMID
        ++ ("instruction=\x22" ++ prompt ++ "\x22") ++ TCA ++ toolsPat ++ TCB)).data = 2 := by
  have er : THEAD ++ agentMarker ++ MIDA ++ ("description=\x22" ++ desc ++ "\x22") ++ TBMID
        ++ ("instruction=\x22" ++ prompt ++ "\x22") ++ TCA ++ toolsPat ++ TCB
      = THEAD ++ (agentMarker ++ (MIDA ++ ("description=\x22" ++ (desc ++ ("\x22"
          ++ (TBMID ++ ("instruction=\x22" ++ (prompt ++ ("\x22" ++ (TCA
          ++ (toolsPat ++ TCB))))))))))) := by
    simp [String.append_assoc]
  rw [er]
  rw [cnt_str_append _ _ (show crossFree "def ".data THEAD.data
    (agentMarker ++ (MIDA ++ ("description=\x22" ++ (desc ++ ("\x22"
      ++ (TBMID ++ ("instruction=\x22" ++ (prompt ++ ("\x22" ++ (TCA
      ++ (toolsPat ++ TCB))))))))))).data from
    crossFree_concat_right (by decide) (by decide) _ _)]
  rw [cnt_str_append _ _ (crossFree_left_concrete (by decide) _)]
  rw [cnt_str_append _ _ (crossFree_left_concrete (by decide) _)]
  rw [cnt_str_append _ _ (crossFree_left_concrete (by decide) _)]
  rw [cnt_str_append _ _ (show crossFree "def ".data desc.data
    ("\x22" ++ (TBMID ++ ("instruction=\x22" ++ (prompt ++ ("\x22" ++ (TCA
      ++ (toolsPat ++ TCB))))))).data from
    crossFree_classmix (p := ("\x22" : String).data) desc.data
      (TBMID ++ ("instruction=\x22" ++ (prompt ++ ("\x22" ++ (TCA
        ++ (toolsPat ++ TCB)))))).data hdesc (by decide))]
  rw [hd0]
  rw [cnt_str_append _ _ (crossFree_left_concrete (by decide) _)]
  rw [cnt_str_append _ _ (crossFree_left_concrete (by decide) _)]
  rw [cnt_str_append _ _ (crossFree_left_concrete (by decide) _)]
  rw [cnt_str_append _ _ (show crossFree "def ".data prompt.data
    ("\x22" ++ (TCA ++ (toolsPat ++ TCB))).data from
    crossFree_classmix (p := ("\x22" : String).data) prompt.data
      (TCA ++ (toolsPat ++ TCB)).data hprompt (by decide))]
  rw [hp0]
  rw [cnt_str_append _ _ (crossFree_left_concrete (by decide) _)]
  rw [cnt_str_append _ _ (crossFree_left_concrete (by decide) _)]
  rw [cnt_str_append _ _ (crossFree_left_concrete (by decide) _)]
  rw [cnt_def_THEAD]
  decide

set_option maxRecDepth 20000 in
/-- The configuration header up to the `LiteLlm(` close contains no
function definition. -/
lemma cnt_def_J46 : cntAux "def ".data (pyJoin "\n" (TL_1_47.take 46)).data = 0 := by
  have h := cnt_def_P0CUT
  rw [P0CUT_cut] at h
  rw [cnt_str_append _ _ (crossFree_right_all (by decide) _)] at h
  rw [cnt_str_append _ _ (crossFree_newline_str (by decide) _ _
    (show ("\n" : String).data.head? = some '\n' from rfl))] at h
  omega
set_option maxRecDepth 20000 in
lemma cnt_def_tools_output (req : GenerateProjectRequest)
    (hne : req.tools ≠ [])
    (hdesc : ∀ c ∈ req.description.data, goodChar c = true)
    (hprompt : ∀ c ∈ req.prompt.data, goodChar c = true)
    (hd0 : cntAux "def ".data req.description.data = 0)
    (hp0 : cntAux "def ".data req.prompt.data = 0)
    (hbt : ∀ t ∈ req.tools, benignTool t) :
    cntAux "def ".data
      (((P0CUT ++ pyJoin "\n" (req.tools.map generate_tool_stub) ++ "\n\n")
        ++ agentMarker
        ++ ((MIDA ++ ("description=\x22" ++ req.description ++ "\x22") ++ TBMID
            ++ ("instruction=\x22" ++ req.prompt ++ "\x22") ++ TCA)
          ++ ("tools=[" ++ pyJoin ", " (req.tools.map (fun t => t.name)) ++ "]") ++ TCB))).data
      = req.tools.length := by
  have hnames : ∀ n ∈ req.tools.map (fun t => t.name),
      (∀ c ∈ n.data, goodChar c = true) ∧ cntAux "def ".data n.data = 0 := by
    intro n hn
    obtain ⟨t, ht, rfl⟩ := List.mem_map.mp hn
    exact ⟨(hbt t ht).1, (hbt t ht).2.2.1⟩
  have er : ((P0CUT ++ pyJoin "\n" (req.tools.map generate_tool_stub) ++ "\n\n")
        ++ agentMarker
        ++ ((MIDA ++ ("description=\x22" ++ req.description ++ "\x22") ++ TBMID
            ++ ("instruction=\x22" ++ req.prompt ++ "\x22") ++ TCA)
          ++ ("tools=[" ++ pyJoin ", " (req.tools.map (fun t => t.name)) ++ "]") ++ TCB))
      = pyJoin "\n" (TL_1_47.take 46) ++ ("\n)\n\n"
          ++ (pyJoin "\n" (req.tools.map generate_tool_stub) ++ ("\n\n"
          ++ (agentMarker ++ (MIDA ++ ("description=\x22" ++ (req.description ++ ("\x22"
          ++ (TBMID ++ ("instruction=\x22" ++ (req.prompt ++ ("\x22" ++ (TCA
          ++ ("tools=[" ++ (pyJoin ", " (req.tools.map (fun t => t.name)) ++ ("]"
          ++ TCB)))))))))))))))) := by
    rw [P0CUT_cut]
    simp [String.append_assoc]
  rw [er]
  rw [cnt_str_append _ _ (crossFree_newline_str (by decide) _ _ (by
    rw [String.data_append,
      show ("\n)\n\n" : String).data = '\n' :: [')', '\n', '\n'] from rfl]
    rfl))]
  rw [cnt_str_append _ _ (crossFree_left_concrete (by decide) _)]
  rw [cnt_str_append _ _ (crossFree_newline_str (by decide) _ _ (by
    rw [String.data_append, show ("\n\n" : String).data = ['\n', '\n'] from rfl]
    rfl))]
  rw [cnt_str_append _ _ (crossFree_left_concrete (by decide) _)]
  rw [cnt_str_append _ _ (crossFree_left_concrete (by decide) _)]
  rw [cnt_str_append _ _ (crossFree_left_concrete (by decide) _)]
  rw [cnt_str_append _ _ (crossFree_left_concrete (by decide) _)]
  rw [cnt_str_append _ _ (show crossFree "def ".data req.description.data
    ("\x22" ++ (TBMID ++ ("instruction=\x22" ++ (req.prompt ++ ("\x22" ++ (TCA
      ++ ("tools=[" ++ (pyJoin ", " (req.tools.map (fun t => t.name)) ++ ("]"
      ++ TCB))))))))).data from
    crossFree_classmix (p := ("\x22" : String).data) req.description.data
      (TBMID ++ ("instruction=\x22" ++ (req.prompt ++ ("\x22" ++ (TCA
        ++ ("tools=[" ++ (pyJoin ", " (req.tools.map (fun t => t.name)) ++ ("]"
        ++ TCB)))))))).data hdesc (by decide))]
  rw [cnt_str_append _ _ (crossFree_left_concrete (by decide) _)]
  rw [cnt_str_append _ _ (crossFree_left_concrete (by decide) _)]
  rw [cnt_str_append _ _ (crossFree_left_concrete (by decide) _)]
  rw [cnt_str_append _ _ (show crossFree "def ".data req.prompt.data
    ("\x22" ++ (TCA ++ ("tools=[" ++ (pyJoin ", " (req.tools.map (fun t => t.name))
      ++ ("]" ++ TCB))))).data from
    crossFree_classmix (p := ("\x22" : String).data) req.prompt.data
      (TCA ++ ("tools=[" ++ (pyJoin ", " (req.tools.map (fun t => t.name))
        ++ ("]" ++ TCB)))).data hprompt (by decide))]
  rw [cnt_str_append _ _ (crossFree_left_concrete (by decide) _)]
  rw [cnt_str_append _ _ (crossFree_left_concrete (by decide) _)]
  rw [cnt_str_append _ _ (crossFree_left_concrete (by decide) _)]
  rw [cnt_str_append _ _ (show crossFree "def ".data
    (pyJoin ", " (req.tools.map (fun t => t.name))).data ("]" ++ TCB).data from
    crossFree_classmix (p := ("]" : String).data)
      (pyJoin ", " (req.tools.map (fun t => t.name))).data TCB.data
      (good_join _ (fun n hn => (hnames n hn).1)) (by decide))]
  rw [cnt_str_append _ _ (crossFree_left_concrete (by decide) _)]
  rw [cnt_def_J46, cnt_def_stub_join req.tools hbt hne, hd0, hp0,
    cnt_def_names_join _ hnames]
  have c2 : cntAux "def ".data ("\n)\n\n" : String).data = 0 := by decide
  have c3 : cntAux "def ".data ("\n\n" : String).data = 0 := by decide
  have c4 : cntAux "def ".data agentMarker.data = 0 := by decide
  have c5 : cntAux "def ".data MIDA.data = 0 := by decide
  have c6 : cntAux "def ".data ("description=\x22" : String).data = 0 := by decide
  have c7 : cntAux "def ".data ("\x22" : String).data = 0 := by decide
  have c8 : cntAux "def ".data TBMID.data = 0 := by decide
  have c9 : cntAux "def ".data ("instruction=\x22" : String).data = 0 := by decide
  have c10 : cntAux "def ".data TCA.data = 0 := by decide
  have c11 : cntAux "def ".data ("tools=[" : String).data = 0 := by decide
  have c12 : cntAux "def ".data ("]" : String).data = 0 := by decide
  have c13 : cntAux "def ".data TCB.data = 0 := by decide
  rw [c2, c3, c4, c5, c6, c7, c8, c9, c10, c11, c12, c13]
  omega

/-- Fixture: a generation request carrying two explicit tools. -/
def c3Request : GenerateProjectRequest :=
  { agent_name := "trip-agent",
    description := "Plans trips.",
    prompt := "You plan trips.",
    tools := [{ name := "get_flights", description := "Find flights." },
              { name := "get_hotels", description := "Find hotels." }],
    create_git_repo := false,
    git_repo_name := none,
    github_token := none,
    github_org := none,
    github_enterprise_url := none }

/-- C3: with an empty tools list the customized agent source keeps exactly
the template's two default tool functions (`get_weather` and
`get_current_time` — the two `def `s inside `THEAD`) and the
agent-construction tools list still names exactly those two; with N tools
supplied, the source contains exactly N function definitions — one
generated stub per tool, in request order — and the tools list is exactly
the supplied tool names in request order joined by comma-space.
(Description, prompt and tool fields are restricted to template-safe text
free of a nested `"def "`, so the searched patterns cannot occur inside
them or straddle their boundaries.) -/
theorem C3_tool_functions_and_list (req : GenerateProjectRequest)
    (hdesc : ∀ c ∈ req.description.data, goodChar c = true)
    (hprompt : ∀ c ∈ req.prompt.data, goodChar c = true)
    (hd0 : cntAux "def ".data req.description.data = 0)
    (hp0 : cntAux "def ".data req.prompt.data = 0)
    (hbt : ∀ t ∈ req.tools, benignTool t) :
    (req.tools = [] →
      customizeContent TEMPLATE req
        = THEAD ++ agentMarker ++ MIDA ++ ("description=\x22" ++ req.description ++ "\x22")
            ++ TBMID ++ ("instruction=\x22" ++ req.prompt ++ "\x22") ++ TCA
            ++ "tools=[get_weather, get_current_time]" ++ TCB
      ∧ cntAux "def ".data (customizeContent TEMPLATE req).data = 2)
    ∧ (req.tools ≠ [] →
      customizeContent TEMPLATE req
        = (P0CUT ++ pyJoin "\n" (req.tools.map generate_tool_stub) ++ "\n\n")
            ++ agentMarker
            ++ ((MIDA ++ ("description=\x22" ++ req.description ++ "\x22") ++ TBMID
                ++ ("instruction=\x22" ++ req.prompt ++ "\x22") ++ TCA)
              ++ ("tools=[" ++ pyJoin ", " (req.tools.map (fun t => t.name)) ++ "]") ++ TCB)
      ∧ cntAux "def ".data (customizeContent TEMPLATE req).data = req.tools.length) := by
  constructor
  · intro hempty
    have hstruct : customizeContent TEMPLATE req
        = THEAD ++ agentMarker ++ MIDA ++ ("description=\x22" ++ req.description ++ "\x22")
            ++ TBMID ++ ("instruction=\x22" ++ req.prompt ++ "\x22") ++ TCA
            ++ "tools=[get_weather, get_current_time]" ++ TCB := by
      unfold customizeContent
      rw [hempty]
      dsimp only
      rw [if_neg (by simp)]
      exact customize_core req.description req.prompt hdesc
    refine ⟨hstruct, ?_⟩
    rw [hstruct]
    exact cnt_def_empty_output req.description req.prompt hdesc hprompt hd0 hp0
  · intro hne
    have hstruct := customize_tools_core req hne hdesc hprompt
    refine ⟨hstruct, ?_⟩
    rw [hstruct]
    exact cnt_def_tools_output req hne hdesc hprompt hd0 hp0 hbt

/-- The C3 property evaluated on a concrete two-tool request: the
hypotheses hold for it, and the conclusion follows by the theorem. -/
theorem C3_witness :
    ((∀ c ∈ c3Request.description.data, goodChar c = true)
      ∧ (∀ c ∈ c3Request.prompt.data, goodChar c = true)
      ∧ cntAux "def ".data c3Request.description.data = 0
      ∧ cntAux "def ".data c3Request.prompt.data = 0
      ∧ (∀ t ∈ c3Request.tools, benignTool t))
    ∧ ((c3Request.tools = [] →
      customizeContent TEMPLATE c3Request
        = THEAD ++ agentMarker ++ MIDA
            ++ ("description=\x22" ++ c3Request.description ++ "\x22")
            ++ TBMID ++ ("instruction=\x22" ++ c3Request.prompt ++ "\x22") ++ TCA
            ++ "tools=[get_weather, get_current_time]" ++ TCB
      ∧ cntAux "def ".data (customizeContent TEMPLATE c3Request).data = 2)
    ∧ (c3Request.tools ≠ [] →
      customizeContent TEMPLATE c3Request
        = (P0CUT ++ pyJoin "\n" (c3Request.tools.map generate_tool_stub) ++ "\n\n")
            ++ agentMarker
            ++ ((MIDA ++ ("description=\x22" ++ c3Request.description ++ "\x22") ++ TBMID
                ++ ("instruction=\x22" ++ c3Request.prompt ++ "\x22") ++ TCA)
              ++ ("tools=[" ++ pyJoin ", " (c3Request.tools.map (fun t => t.name)) ++ "]")
              ++ TCB)
      ∧ cntAux "def ".data (customizeContent TEMPLATE c3Request).data
          = c3Request.tools.length)) :=
  ⟨⟨by decide, by decide, by decide, by decide, by decide⟩,
    C3_tool_functions_and_list c3Request (by decide) (by decide) (by decide) (by decide)
      (by decide)⟩
end AgentStarter
